import Mathlib

/-!
The declarations of `tools/golang/xenlight/types.gen.go`.

The Go file consists of declarations only: integer-backed enumeration types
with their constant blocks, struct types, one single-method marker interface
per keyed union, and one empty method per union variant.  The file is embedded
as a list of declarations in source order, and the properties of the
declaration set are proved about that list.
-/

namespace Xenlight

/-- A Go type expression in a field position: a type name, a slice `[]T`, or an
inline struct literal `struct { ... }` with its own field list. -/
inductive GoType where
  | named (n : String)
  | slice (elem : GoType)
  | structLit (fields : List (String × GoType))

mutual
/-- Decidable equality of type expressions. -/
def GoType.decEq : (a b : GoType) → Decidable (a = b)
  | .named n, .named m =>
    if h : n = m then isTrue (by rw [h]) else isFalse (by intro e; cases e; exact h rfl)
  | .slice a, .slice b =>
    match GoType.decEq a b with
    | isTrue h => isTrue (by rw [h])
    | isFalse h => isFalse (by intro e; cases e; exact h rfl)
  | .structLit fs, .structLit gs =>
    match GoType.decEqFields fs gs with
    | isTrue h => isTrue (by rw [h])
    | isFalse h => isFalse (by intro e; cases e; exact h rfl)
  | .named _, .slice _ => isFalse (by intro e; cases e)
  | .named _, .structLit _ => isFalse (by intro e; cases e)
  | .slice _, .named _ => isFalse (by intro e; cases e)
  | .slice _, .structLit _ => isFalse (by intro e; cases e)
  | .structLit _, .named _ => isFalse (by intro e; cases e)
  | .structLit _, .slice _ => isFalse (by intro e; cases e)
/-- Decidable equality of field lists. -/
def GoType.decEqFields : (a b : List (String × GoType)) → Decidable (a = b)
  | [], [] => isTrue rfl
  | [], _ :: _ => isFalse (by intro e; cases e)
  | _ :: _, [] => isFalse (by intro e; cases e)
  | (n, t) :: r, (m, u) :: s =>
    if hn : n = m then
      match GoType.decEq t u with
      | isTrue ht =>
        match GoType.decEqFields r s with
        | isTrue hr => isTrue (by rw [hn, ht, hr])
        | isFalse hr => isFalse (by intro e; cases e; exact hr rfl)
      | isFalse ht => isFalse (by intro e; cases e; exact ht rfl)
    else isFalse (by intro e; cases e; exact hn rfl)
end

instance : DecidableEq GoType := GoType.decEq

/-- One line `Name Type = value` of a `const( ... )` block. -/
structure ConstSpec where
  name : String
  type : String
  value : Int
  deriving DecidableEq

/-- A top-level declaration of the file. -/
inductive Decl where
  /-- The declaration `type Name Underlying`. -/
  | typeDef (name : String) (underlying : String)
  /-- A block `const( ... )`. -/
  | constBlock (specs : List ConstSpec)
  /-- The declaration `type Name struct { ... }`. -/
  | structDef (name : String) (fields : List (String × GoType))
  /-- The declaration `type Name interface { m1() ... }`. -/
  | interfaceDef (name : String) (methods : List String)
  /-- The declaration `func (x Recv) name(){}`. -/
  | methodDef (recv : String) (name : String)
  deriving DecidableEq

/-- The two comment lines that open the file. -/
def typesGenHeader : List String :=
  ["// Code generated by gengotypes.py. DO NOT EDIT.",
   "// source: libxl_types.idl"]

/-- The package clause of the file. -/
def typesGenPackage : String := "xenlight"

/-- The `const` block at lines 7 to 40: the constants of `Error`. -/
def constsError : List ConstSpec := [
  ⟨"ErrorNonspecific", "Error", -1⟩,
  ⟨"ErrorVersion", "Error", -2⟩,
  ⟨"ErrorFail", "Error", -3⟩,
  ⟨"ErrorNi", "Error", -4⟩,
  ⟨"ErrorNomem", "Error", -5⟩,
  ⟨"ErrorInval", "Error", -6⟩,
  ⟨"ErrorBadfail", "Error", -7⟩,
  ⟨"ErrorGuestTimedout", "Error", -8⟩,
  ⟨"ErrorTimedout", "Error", -9⟩,
  ⟨"ErrorNoparavirt", "Error", -10⟩,
  ⟨"ErrorNotReady", "Error", -11⟩,
  ⟨"ErrorOseventRegFail", "Error", -12⟩,
  ⟨"ErrorBufferfull", "Error", -13⟩,
  ⟨"ErrorUnknownChild", "Error", -14⟩,
  ⟨"ErrorLockFail", "Error", -15⟩,
  ⟨"ErrorJsonConfigEmpty", "Error", -16⟩,
  ⟨"ErrorDeviceExists", "Error", -17⟩,
  ⟨"ErrorCheckpointDevopsDoesNotMatch", "Error", -18⟩,
  ⟨"ErrorCheckpointDeviceNotSupported", "Error", -19⟩,
  ⟨"ErrorVnumaConfigInvalid", "Error", -20⟩,
  ⟨"ErrorDomainNotfound", "Error", -21⟩,
  ⟨"ErrorAborted", "Error", -22⟩,
  ⟨"ErrorNotfound", "Error", -23⟩,
  ⟨"ErrorDomainDestroyed", "Error", -24⟩,
  ⟨"ErrorFeatureRemoved", "Error", -25⟩,
  ⟨"ErrorProtocolErrorQmp", "Error", -26⟩,
  ⟨"ErrorUnknownQmpError", "Error", -27⟩,
  ⟨"ErrorQmpGenericError", "Error", -28⟩,
  ⟨"ErrorQmpCommandNotFound", "Error", -29⟩,
  ⟨"ErrorQmpDeviceNotActive", "Error", -30⟩,
  ⟨"ErrorQmpDeviceNotFound", "Error", -31⟩,
  ⟨"ErrorQemuApi", "Error", -32⟩]

/-- The `const` block at lines 43 to 48: the constants of `DomainType`. -/
def constsDomainType : List ConstSpec := [
  ⟨"DomainTypeInvalid", "DomainType", -1⟩,
  ⟨"DomainTypeHvm", "DomainType", 1⟩,
  ⟨"DomainTypePv", "DomainType", 2⟩,
  ⟨"DomainTypePvh", "DomainType", 3⟩]

/-- The `const` block at lines 51 to 54: the constants of `RdmReserveStrategy`. -/
def constsRdmReserveStrategy : List ConstSpec := [
  ⟨"RdmReserveStrategyIgnore", "RdmReserveStrategy", 0⟩,
  ⟨"RdmReserveStrategyHost", "RdmReserveStrategy", 1⟩]

/-- The `const` block at lines 57 to 61: the constants of `RdmReservePolicy`. -/
def constsRdmReservePolicy : List ConstSpec := [
  ⟨"RdmReservePolicyInvalid", "RdmReservePolicy", -1⟩,
  ⟨"RdmReservePolicyStrict", "RdmReservePolicy", 0⟩,
  ⟨"RdmReservePolicyRelaxed", "RdmReservePolicy", 1⟩]

/-- The `const` block at lines 64 to 68: the constants of `ChannelConnection`. -/
def constsChannelConnection : List ConstSpec := [
  ⟨"ChannelConnectionUnknown", "ChannelConnection", 0⟩,
  ⟨"ChannelConnectionPty", "ChannelConnection", 1⟩,
  ⟨"ChannelConnectionSocket", "ChannelConnection", 2⟩]

/-- The `const` block at lines 71 to 75: the constants of `DeviceModelVersion`. -/
def constsDeviceModelVersion : List ConstSpec := [
  ⟨"DeviceModelVersionUnknown", "DeviceModelVersion", 0⟩,
  ⟨"DeviceModelVersionQemuXenTraditional", "DeviceModelVersion", 1⟩,
  ⟨"DeviceModelVersionQemuXen", "DeviceModelVersion", 2⟩]

/-- The `const` block at lines 78 to 83: the constants of `ConsoleType`. -/
def constsConsoleType : List ConstSpec := [
  ⟨"ConsoleTypeUnknown", "ConsoleType", 0⟩,
  ⟨"ConsoleTypeSerial", "ConsoleType", 1⟩,
  ⟨"ConsoleTypePv", "ConsoleType", 2⟩,
  ⟨"ConsoleTypeVuart", "ConsoleType", 3⟩]

/-- The `const` block at lines 86 to 94: the constants of `DiskFormat`. -/
def constsDiskFormat : List ConstSpec := [
  ⟨"DiskFormatUnknown", "DiskFormat", 0⟩,
  ⟨"DiskFormatQcow", "DiskFormat", 1⟩,
  ⟨"DiskFormatQcow2", "DiskFormat", 2⟩,
  ⟨"DiskFormatVhd", "DiskFormat", 3⟩,
  ⟨"DiskFormatRaw", "DiskFormat", 4⟩,
  ⟨"DiskFormatEmpty", "DiskFormat", 5⟩,
  ⟨"DiskFormatQed", "DiskFormat", 6⟩]

/-- The `const` block at lines 97 to 103: the constants of `DiskBackend`. -/
def constsDiskBackend : List ConstSpec := [
  ⟨"DiskBackendUnknown", "DiskBackend", 0⟩,
  ⟨"DiskBackendPhy", "DiskBackend", 1⟩,
  ⟨"DiskBackendTap", "DiskBackend", 2⟩,
  ⟨"DiskBackendQdisk", "DiskBackend", 3⟩,
  ⟨"DiskBackendStandalone", "DiskBackend", 4⟩]

/-- The `const` block at lines 106 to 110: the constants of `DiskSpecification`. -/
def constsDiskSpecification : List ConstSpec := [
  ⟨"DiskSpecificationUnknown", "DiskSpecification", 0⟩,
  ⟨"DiskSpecificationXen", "DiskSpecification", 1⟩,
  ⟨"DiskSpecificationVirtio", "DiskSpecification", 2⟩]

/-- The `const` block at lines 113 to 116: the constants of `DiskTransport`. -/
def constsDiskTransport : List ConstSpec := [
  ⟨"DiskTransportUnknown", "DiskTransport", 0⟩,
  ⟨"DiskTransportMmio", "DiskTransport", 1⟩]

/-- The `const` block at lines 119 to 123: the constants of `NicType`. -/
def constsNicType : List ConstSpec := [
  ⟨"NicTypeUnknown", "NicType", 0⟩,
  ⟨"NicTypeVifIoemu", "NicType", 1⟩,
  ⟨"NicTypeVif", "NicType", 2⟩]

/-- The `const` block at lines 126 to 130: the constants of `P9Type`. -/
def constsP9Type : List ConstSpec := [
  ⟨"P9TypeUnknown", "P9Type", 0⟩,
  ⟨"P9TypeQemu", "P9Type", 1⟩,
  ⟨"P9TypeXen9Pfsd", "P9Type", 2⟩]

/-- The `const` block at lines 133 to 141: the constants of `ActionOnShutdown`. -/
def constsActionOnShutdown : List ConstSpec := [
  ⟨"ActionOnShutdownDestroy", "ActionOnShutdown", 1⟩,
  ⟨"ActionOnShutdownRestart", "ActionOnShutdown", 2⟩,
  ⟨"ActionOnShutdownRestartRename", "ActionOnShutdown", 3⟩,
  ⟨"ActionOnShutdownPreserve", "ActionOnShutdown", 4⟩,
  ⟨"ActionOnShutdownCoredumpDestroy", "ActionOnShutdown", 5⟩,
  ⟨"ActionOnShutdownCoredumpRestart", "ActionOnShutdown", 6⟩,
  ⟨"ActionOnShutdownSoftReset", "ActionOnShutdown", 7⟩]

/-- The `const` block at lines 144 to 152: the constants of `Trigger`. -/
def constsTrigger : List ConstSpec := [
  ⟨"TriggerUnknown", "Trigger", 0⟩,
  ⟨"TriggerPower", "Trigger", 1⟩,
  ⟨"TriggerSleep", "Trigger", 2⟩,
  ⟨"TriggerNmi", "Trigger", 3⟩,
  ⟨"TriggerInit", "Trigger", 4⟩,
  ⟨"TriggerReset", "Trigger", 5⟩,
  ⟨"TriggerS3Resume", "Trigger", 6⟩]

/-- The `const` block at lines 155 to 160: the constants of `TscMode`. -/
def constsTscMode : List ConstSpec := [
  ⟨"TscModeDefault", "TscMode", 0⟩,
  ⟨"TscModeAlwaysEmulate", "TscMode", 1⟩,
  ⟨"TscModeNative", "TscMode", 2⟩,
  ⟨"TscModeNativeParavirt", "TscMode", 3⟩]

/-- The `const` block at lines 163 to 166: the constants of `GfxPassthruKind`. -/
def constsGfxPassthruKind : List ConstSpec := [
  ⟨"GfxPassthruKindDefault", "GfxPassthruKind", 0⟩,
  ⟨"GfxPassthruKindIgd", "GfxPassthruKind", 1⟩]

/-- The `const` block at lines 169 to 175: the constants of `TimerMode`. -/
def constsTimerMode : List ConstSpec := [
  ⟨"TimerModeUnknown", "TimerMode", -1⟩,
  ⟨"TimerModeDelayForMissedTicks", "TimerMode", 0⟩,
  ⟨"TimerModeNoDelayForMissedTicks", "TimerMode", 1⟩,
  ⟨"TimerModeNoMissedTicksPending", "TimerMode", 2⟩,
  ⟨"TimerModeOneMissedTickPending", "TimerMode", 3⟩]

/-- The `const` block at lines 178 to 183: the constants of `BiosType`. -/
def constsBiosType : List ConstSpec := [
  ⟨"BiosTypeUnknown", "BiosType", 0⟩,
  ⟨"BiosTypeRombios", "BiosType", 1⟩,
  ⟨"BiosTypeSeabios", "BiosType", 2⟩,
  ⟨"BiosTypeOvmf", "BiosType", 3⟩]

/-- The `const` block at lines 186 to 194: the constants of `Scheduler`. -/
def constsScheduler : List ConstSpec := [
  ⟨"SchedulerUnknown", "Scheduler", 0⟩,
  ⟨"SchedulerSedf", "Scheduler", 4⟩,
  ⟨"SchedulerCredit", "Scheduler", 5⟩,
  ⟨"SchedulerCredit2", "Scheduler", 6⟩,
  ⟨"SchedulerArinc653", "Scheduler", 7⟩,
  ⟨"SchedulerRtds", "Scheduler", 8⟩,
  ⟨"SchedulerNull", "Scheduler", 9⟩]

/-- The `const` block at lines 197 to 205: the constants of `ShutdownReason`. -/
def constsShutdownReason : List ConstSpec := [
  ⟨"ShutdownReasonUnknown", "ShutdownReason", -1⟩,
  ⟨"ShutdownReasonPoweroff", "ShutdownReason", 0⟩,
  ⟨"ShutdownReasonReboot", "ShutdownReason", 1⟩,
  ⟨"ShutdownReasonSuspend", "ShutdownReason", 2⟩,
  ⟨"ShutdownReasonCrash", "ShutdownReason", 3⟩,
  ⟨"ShutdownReasonWatchdog", "ShutdownReason", 4⟩,
  ⟨"ShutdownReasonSoftReset", "ShutdownReason", 5⟩]

/-- The `const` block at lines 208 to 214: the constants of `VgaInterfaceType`. -/
def constsVgaInterfaceType : List ConstSpec := [
  ⟨"VgaInterfaceTypeUnknown", "VgaInterfaceType", 0⟩,
  ⟨"VgaInterfaceTypeCirrus", "VgaInterfaceType", 1⟩,
  ⟨"VgaInterfaceTypeStd", "VgaInterfaceType", 2⟩,
  ⟨"VgaInterfaceTypeNone", "VgaInterfaceType", 3⟩,
  ⟨"VgaInterfaceTypeQxl", "VgaInterfaceType", 4⟩]

/-- The `const` block at lines 217 to 220: the constants of `VendorDevice`. -/
def constsVendorDevice : List ConstSpec := [
  ⟨"VendorDeviceNone", "VendorDevice", 0⟩,
  ⟨"VendorDeviceXenserver", "VendorDevice", 1⟩]

/-- The `const` block at lines 223 to 237: the constants of `ViridianEnlightenment`. -/
def constsViridianEnlightenment : List ConstSpec := [
  ⟨"ViridianEnlightenmentBase", "ViridianEnlightenment", 0⟩,
  ⟨"ViridianEnlightenmentFreq", "ViridianEnlightenment", 1⟩,
  ⟨"ViridianEnlightenmentTimeRefCount", "ViridianEnlightenment", 2⟩,
  ⟨"ViridianEnlightenmentReferenceTsc", "ViridianEnlightenment", 3⟩,
  ⟨"ViridianEnlightenmentHcallRemoteTlbFlush", "ViridianEnlightenment", 4⟩,
  ⟨"ViridianEnlightenmentApicAssist", "ViridianEnlightenment", 5⟩,
  ⟨"ViridianEnlightenmentCrashCtl", "ViridianEnlightenment", 6⟩,
  ⟨"ViridianEnlightenmentSynic", "ViridianEnlightenment", 7⟩,
  ⟨"ViridianEnlightenmentStimer", "ViridianEnlightenment", 8⟩,
  ⟨"ViridianEnlightenmentHcallIpi", "ViridianEnlightenment", 9⟩,
  ⟨"ViridianEnlightenmentExProcessorMasks", "ViridianEnlightenment", 10⟩,
  ⟨"ViridianEnlightenmentNoVpLimit", "ViridianEnlightenment", 11⟩,
  ⟨"ViridianEnlightenmentCpuHotplug", "ViridianEnlightenment", 12⟩]

/-- The `const` block at lines 240 to 243: the constants of `Hdtype`. -/
def constsHdtype : List ConstSpec := [
  ⟨"HdtypeIde", "Hdtype", 1⟩,
  ⟨"HdtypeAhci", "Hdtype", 2⟩]

/-- The `const` block at lines 246 to 250: the constants of `CheckpointedStream`. -/
def constsCheckpointedStream : List ConstSpec := [
  ⟨"CheckpointedStreamNone", "CheckpointedStream", 0⟩,
  ⟨"CheckpointedStreamRemus", "CheckpointedStream", 1⟩,
  ⟨"CheckpointedStreamColo", "CheckpointedStream", 2⟩]

/-- The `const` block at lines 253 to 256: the constants of `VuartType`. -/
def constsVuartType : List ConstSpec := [
  ⟨"VuartTypeUnknown", "VuartType", 0⟩,
  ⟨"VuartTypeSbsaUart", "VuartType", 1⟩]

/-- The `const` block at lines 259 to 263: the constants of `VkbBackend`. -/
def constsVkbBackend : List ConstSpec := [
  ⟨"VkbBackendUnknown", "VkbBackend", 0⟩,
  ⟨"VkbBackendQemu", "VkbBackend", 1⟩,
  ⟨"VkbBackendLinux", "VkbBackend", 2⟩]

/-- The `const` block at lines 266 to 269: the constants of `VirtioTransport`. -/
def constsVirtioTransport : List ConstSpec := [
  ⟨"VirtioTransportUnknown", "VirtioTransport", 0⟩,
  ⟨"VirtioTransportMmio", "VirtioTransport", 1⟩]

/-- The `const` block at lines 272 to 278: the constants of `Passthrough`. -/
def constsPassthrough : List ConstSpec := [
  ⟨"PassthroughDefault", "Passthrough", 0⟩,
  ⟨"PassthroughDisabled", "Passthrough", 1⟩,
  ⟨"PassthroughEnabled", "Passthrough", 2⟩,
  ⟨"PassthroughSyncPt", "Passthrough", 3⟩,
  ⟨"PassthroughSharePt", "Passthrough", 4⟩]

/-- The fields of `type IoportRange struct`, lines 280 to 283. -/
def fieldsIoportRange : List (String × GoType) := [
  ("First", GoType.named "uint32"),
  ("Number", GoType.named "uint32")]

/-- The fields of `type IomemRange struct`, lines 285 to 289. -/
def fieldsIomemRange : List (String × GoType) := [
  ("Start", GoType.named "uint64"),
  ("Number", GoType.named "uint64"),
  ("Gfn", GoType.named "uint64")]

/-- The fields of `type VgaInterfaceInfo struct`, lines 291 to 293. -/
def fieldsVgaInterfaceInfo : List (String × GoType) := [
  ("Kind", GoType.named "VgaInterfaceType")]

/-- The fields of `type VncInfo struct`, lines 295 to 301. -/
def fieldsVncInfo : List (String × GoType) := [
  ("Enable", GoType.named "Defbool"),
  ("Listen", GoType.named "string"),
  ("Passwd", GoType.named "string"),
  ("Display", GoType.named "int"),
  ("Findunused", GoType.named "Defbool")]

/-- The fields of `type SpiceInfo struct`, lines 303 to 316. -/
def fieldsSpiceInfo : List (String × GoType) := [
  ("Enable", GoType.named "Defbool"),
  ("Port", GoType.named "int"),
  ("TlsPort", GoType.named "int"),
  ("Host", GoType.named "string"),
  ("DisableTicketing", GoType.named "Defbool"),
  ("Passwd", GoType.named "string"),
  ("AgentMouse", GoType.named "Defbool"),
  ("Vdagent", GoType.named "Defbool"),
  ("ClipboardSharing", GoType.named "Defbool"),
  ("Usbredirection", GoType.named "int"),
  ("ImageCompression", GoType.named "string"),
  ("StreamingVideo", GoType.named "string")]

/-- The fields of `type SdlInfo struct`, lines 318 to 323. -/
def fieldsSdlInfo : List (String × GoType) := [
  ("Enable", GoType.named "Defbool"),
  ("Opengl", GoType.named "Defbool"),
  ("Display", GoType.named "string"),
  ("Xauthority", GoType.named "string")]

/-- The fields of `type Dominfo struct`, lines 325 to 348. -/
def fieldsDominfo : List (String × GoType) := [
  ("Uuid", GoType.named "Uuid"),
  ("Domid", GoType.named "Domid"),
  ("Ssidref", GoType.named "uint32"),
  ("SsidLabel", GoType.named "string"),
  ("Running", GoType.named "bool"),
  ("Blocked", GoType.named "bool"),
  ("Paused", GoType.named "bool"),
  ("Shutdown", GoType.named "bool"),
  ("Dying", GoType.named "bool"),
  ("NeverStop", GoType.named "bool"),
  ("ShutdownReason", GoType.named "ShutdownReason"),
  ("OutstandingMemkb", GoType.named "uint64"),
  ("CurrentMemkb", GoType.named "uint64"),
  ("SharedMemkb", GoType.named "uint64"),
  ("PagedMemkb", GoType.named "uint64"),
  ("MaxMemkb", GoType.named "uint64"),
  ("CpuTime", GoType.named "uint64"),
  ("VcpuMaxId", GoType.named "uint32"),
  ("VcpuOnline", GoType.named "uint32"),
  ("Cpupool", GoType.named "uint32"),
  ("GpaddrBits", GoType.named "byte"),
  ("DomainType", GoType.named "DomainType")]

/-- The fields of `type Cpupoolinfo struct`, lines 350 to 356. -/
def fieldsCpupoolinfo : List (String × GoType) := [
  ("Poolid", GoType.named "uint32"),
  ("PoolName", GoType.named "string"),
  ("Sched", GoType.named "Scheduler"),
  ("NDom", GoType.named "uint32"),
  ("Cpumap", GoType.named "Bitmap")]

/-- The fields of `type Channelinfo struct`, lines 358 to 369. -/
def fieldsChannelinfo : List (String × GoType) := [
  ("Backend", GoType.named "string"),
  ("BackendId", GoType.named "uint32"),
  ("Frontend", GoType.named "string"),
  ("FrontendId", GoType.named "uint32"),
  ("Devid", GoType.named "Devid"),
  ("State", GoType.named "int"),
  ("Evtch", GoType.named "int"),
  ("Rref", GoType.named "int"),
  ("Connection", GoType.named "ChannelConnection"),
  ("ConnectionUnion", GoType.named "ChannelinfoConnectionUnion")]

/-- The fields of `type ChannelinfoConnectionUnionPty struct`, lines 375 to 377. -/
def fieldsChannelinfoConnectionUnionPty : List (String × GoType) := [
  ("Path", GoType.named "string")]

/-- The fields of `type Vminfo struct`, lines 381 to 384. -/
def fieldsVminfo : List (String × GoType) := [
  ("Uuid", GoType.named "Uuid"),
  ("Domid", GoType.named "Domid")]

/-- The fields of `type VersionInfo struct`, lines 386 to 400. -/
def fieldsVersionInfo : List (String × GoType) := [
  ("XenVersionMajor", GoType.named "int"),
  ("XenVersionMinor", GoType.named "int"),
  ("XenVersionExtra", GoType.named "string"),
  ("Compiler", GoType.named "string"),
  ("CompileBy", GoType.named "string"),
  ("CompileDomain", GoType.named "string"),
  ("CompileDate", GoType.named "string"),
  ("Capabilities", GoType.named "string"),
  ("Changeset", GoType.named "string"),
  ("VirtStart", GoType.named "uint64"),
  ("Pagesize", GoType.named "int"),
  ("Commandline", GoType.named "string"),
  ("BuildId", GoType.named "string")]

/-- The `const` block at lines 403 to 422: the constants of `SmbiosType`. -/
def constsSmbiosType : List ConstSpec := [
  ⟨"SmbiosTypeBiosVendor", "SmbiosType", 1⟩,
  ⟨"SmbiosTypeBiosVersion", "SmbiosType", 2⟩,
  ⟨"SmbiosTypeSystemManufacturer", "SmbiosType", 3⟩,
  ⟨"SmbiosTypeSystemProductName", "SmbiosType", 4⟩,
  ⟨"SmbiosTypeSystemVersion", "SmbiosType", 5⟩,
  ⟨"SmbiosTypeSystemSerialNumber", "SmbiosType", 6⟩,
  ⟨"SmbiosTypeBaseboardManufacturer", "SmbiosType", 7⟩,
  ⟨"SmbiosTypeBaseboardProductName", "SmbiosType", 8⟩,
  ⟨"SmbiosTypeBaseboardVersion", "SmbiosType", 9⟩,
  ⟨"SmbiosTypeBaseboardSerialNumber", "SmbiosType", 10⟩,
  ⟨"SmbiosTypeBaseboardAssetTag", "SmbiosType", 11⟩,
  ⟨"SmbiosTypeBaseboardLocationInChassis", "SmbiosType", 12⟩,
  ⟨"SmbiosTypeEnclosureManufacturer", "SmbiosType", 13⟩,
  ⟨"SmbiosTypeEnclosureSerialNumber", "SmbiosType", 14⟩,
  ⟨"SmbiosTypeEnclosureAssetTag", "SmbiosType", 15⟩,
  ⟨"SmbiosTypeBatteryManufacturer", "SmbiosType", 16⟩,
  ⟨"SmbiosTypeBatteryDeviceName", "SmbiosType", 17⟩,
  ⟨"SmbiosTypeOem", "SmbiosType", 18⟩]

/-- The fields of `type Smbios struct`, lines 424 to 427. -/
def fieldsSmbios : List (String × GoType) := [
  ("Key", GoType.named "SmbiosType"),
  ("Value", GoType.named "string")]

/-- The fields of `type DomainCreateInfo struct`, lines 429 to 446. -/
def fieldsDomainCreateInfo : List (String × GoType) := [
  ("Type", GoType.named "DomainType"),
  ("Hap", GoType.named "Defbool"),
  ("Oos", GoType.named "Defbool"),
  ("Ssidref", GoType.named "uint32"),
  ("SsidLabel", GoType.named "string"),
  ("Name", GoType.named "string"),
  ("Domid", GoType.named "Domid"),
  ("Uuid", GoType.named "Uuid"),
  ("Xsdata", GoType.named "KeyValueList"),
  ("Platformdata", GoType.named "KeyValueList"),
  ("Poolid", GoType.named "uint32"),
  ("PoolName", GoType.named "string"),
  ("RunHotplugScripts", GoType.named "Defbool"),
  ("DriverDomain", GoType.named "Defbool"),
  ("Passthrough", GoType.named "Passthrough"),
  ("XendSuspendEvtchnCompat", GoType.named "Defbool")]

/-- The fields of `type DomainRestoreParams struct`, lines 448 to 453. -/
def fieldsDomainRestoreParams : List (String × GoType) := [
  ("CheckpointedStream", GoType.named "int"),
  ("StreamVersion", GoType.named "uint32"),
  ("ColoProxyScript", GoType.named "string"),
  ("UserspaceColoProxy", GoType.named "Defbool")]

/-- The fields of `type SchedParams struct`, lines 455 to 462. -/
def fieldsSchedParams : List (String × GoType) := [
  ("Vcpuid", GoType.named "int"),
  ("Weight", GoType.named "int"),
  ("Cap", GoType.named "int"),
  ("Period", GoType.named "int"),
  ("Extratime", GoType.named "int"),
  ("Budget", GoType.named "int")]

/-- The fields of `type VcpuSchedParams struct`, lines 464 to 467. -/
def fieldsVcpuSchedParams : List (String × GoType) := [
  ("Sched", GoType.named "Scheduler"),
  ("Vcpus", GoType.slice (GoType.named "SchedParams"))]

/-- The fields of `type DomainSchedParams struct`, lines 469 to 478. -/
def fieldsDomainSchedParams : List (String × GoType) := [
  ("Sched", GoType.named "Scheduler"),
  ("Weight", GoType.named "int"),
  ("Cap", GoType.named "int"),
  ("Period", GoType.named "int"),
  ("Budget", GoType.named "int"),
  ("Extratime", GoType.named "int"),
  ("Slice", GoType.named "int"),
  ("Latency", GoType.named "int")]

/-- The fields of `type VnodeInfo struct`, lines 480 to 485. -/
def fieldsVnodeInfo : List (String × GoType) := [
  ("Memkb", GoType.named "uint64"),
  ("Distances", GoType.slice (GoType.named "uint32")),
  ("Pnode", GoType.named "uint32"),
  ("Vcpus", GoType.named "Bitmap")]

/-- The `const` block at lines 488 to 492: the constants of `GicVersion`. -/
def constsGicVersion : List ConstSpec := [
  ⟨"GicVersionDefault", "GicVersion", 0⟩,
  ⟨"GicVersionV2", "GicVersion", 32⟩,
  ⟨"GicVersionV3", "GicVersion", 48⟩]

/-- The `const` block at lines 495 to 499: the constants of `TeeType`. -/
def constsTeeType : List ConstSpec := [
  ⟨"TeeTypeNone", "TeeType", 0⟩,
  ⟨"TeeTypeOptee", "TeeType", 1⟩,
  ⟨"TeeTypeFfa", "TeeType", 2⟩]

/-- The `const` block at lines 502 to 521: the constants of `SveType`. -/
def constsSveType : List ConstSpec := [
  ⟨"SveTypeHw", "SveType", -1⟩,
  ⟨"SveTypeDisabled", "SveType", 0⟩,
  ⟨"SveType128", "SveType", 128⟩,
  ⟨"SveType256", "SveType", 256⟩,
  ⟨"SveType384", "SveType", 384⟩,
  ⟨"SveType512", "SveType", 512⟩,
  ⟨"SveType640", "SveType", 640⟩,
  ⟨"SveType768", "SveType", 768⟩,
  ⟨"SveType896", "SveType", 896⟩,
  ⟨"SveType1024", "SveType", 1024⟩,
  ⟨"SveType1152", "SveType", 1152⟩,
  ⟨"SveType1280", "SveType", 1280⟩,
  ⟨"SveType1408", "SveType", 1408⟩,
  ⟨"SveType1536", "SveType", 1536⟩,
  ⟨"SveType1664", "SveType", 1664⟩,
  ⟨"SveType1792", "SveType", 1792⟩,
  ⟨"SveType1920", "SveType", 1920⟩,
  ⟨"SveType2048", "SveType", 2048⟩]

/-- The fields of `type RdmReserve struct`, lines 523 to 526. -/
def fieldsRdmReserve : List (String × GoType) := [
  ("Strategy", GoType.named "RdmReserveStrategy"),
  ("Policy", GoType.named "RdmReservePolicy")]

/-- The `const` block at lines 529 to 534: the constants of `Altp2MMode`. -/
def constsAltp2MMode : List ConstSpec := [
  ⟨"Altp2MModeDisabled", "Altp2MMode", 0⟩,
  ⟨"Altp2MModeMixed", "Altp2MMode", 1⟩,
  ⟨"Altp2MModeExternal", "Altp2MMode", 2⟩,
  ⟨"Altp2MModeLimited", "Altp2MMode", 3⟩]

/-- The fields of `type DomainBuildInfo struct`, lines 536 to 609. -/
def fieldsDomainBuildInfo : List (String × GoType) := [
  ("MaxVcpus", GoType.named "int"),
  ("AvailVcpus", GoType.named "Bitmap"),
  ("Cpumap", GoType.named "Bitmap"),
  ("Nodemap", GoType.named "Bitmap"),
  ("VcpuHardAffinity", GoType.slice (GoType.named "Bitmap")),
  ("VcpuSoftAffinity", GoType.slice (GoType.named "Bitmap")),
  ("NumaPlacement", GoType.named "Defbool"),
  ("TscMode", GoType.named "TscMode"),
  ("MaxMemkb", GoType.named "uint64"),
  ("TargetMemkb", GoType.named "uint64"),
  ("VideoMemkb", GoType.named "uint64"),
  ("ShadowMemkb", GoType.named "uint64"),
  ("IommuMemkb", GoType.named "uint64"),
  ("RtcTimeoffset", GoType.named "uint32"),
  ("ExecSsidref", GoType.named "uint32"),
  ("ExecSsidLabel", GoType.named "string"),
  ("Localtime", GoType.named "Defbool"),
  ("DisableMigrate", GoType.named "Defbool"),
  ("Cpuid", GoType.named "CpuidPolicyList"),
  ("BlkdevStart", GoType.named "string"),
  ("VnumaNodes", GoType.slice (GoType.named "VnodeInfo")),
  ("MaxGrantFrames", GoType.named "uint32"),
  ("MaxMaptrackFrames", GoType.named "uint32"),
  ("MaxGrantVersion", GoType.named "int"),
  ("DeviceModelVersion", GoType.named "DeviceModelVersion"),
  ("DeviceModelStubdomain", GoType.named "Defbool"),
  ("StubdomainMemkb", GoType.named "uint64"),
  ("StubdomainKernel", GoType.named "string"),
  ("StubdomainCmdline", GoType.named "string"),
  ("StubdomainRamdisk", GoType.named "string"),
  ("DeviceModel", GoType.named "string"),
  ("DeviceModelSsidref", GoType.named "uint32"),
  ("DeviceModelSsidLabel", GoType.named "string"),
  ("DeviceModelUser", GoType.named "string"),
  ("Extra", GoType.named "StringList"),
  ("ExtraPv", GoType.named "StringList"),
  ("ExtraHvm", GoType.named "StringList"),
  ("SchedParams", GoType.named "DomainSchedParams"),
  ("Ioports", GoType.slice (GoType.named "IoportRange")),
  ("Irqs", GoType.slice (GoType.named "uint32")),
  ("Iomem", GoType.slice (GoType.named "IomemRange")),
  ("LlcColors", GoType.slice (GoType.named "uint32")),
  ("ClaimMode", GoType.named "Defbool"),
  ("EventChannels", GoType.named "uint32"),
  ("Kernel", GoType.named "string"),
  ("Cmdline", GoType.named "string"),
  ("Ramdisk", GoType.named "string"),
  ("DeviceTree", GoType.named "string"),
  ("Acpi", GoType.named "Defbool"),
  ("Bootloader", GoType.named "string"),
  ("BootloaderArgs", GoType.named "StringList"),
  ("BootloaderRestrict", GoType.named "Defbool"),
  ("BootloaderUser", GoType.named "string"),
  ("TimerMode", GoType.named "TimerMode"),
  ("NestedHvm", GoType.named "Defbool"),
  ("Apic", GoType.named "Defbool"),
  ("DmRestrict", GoType.named "Defbool"),
  ("Tee", GoType.named "TeeType"),
  ("Type", GoType.named "DomainType"),
  ("TypeUnion", GoType.named "DomainBuildInfoTypeUnion"),
  ("ArchArm", GoType.structLit [
    ("GicVersion", GoType.named "GicVersion"),
    ("Vuart", GoType.named "VuartType"),
    ("SveVl", GoType.named "SveType"),
    ("NrSpis", GoType.named "uint32")]),
  ("ArchX86", GoType.structLit [
    ("MsrRelaxed", GoType.named "Defbool")]),
  ("Altp2M", GoType.named "Altp2MMode"),
  ("VmtraceBufKb", GoType.named "int"),
  ("Vpmu", GoType.named "Defbool")]

/-- The fields of `type DomainBuildInfoTypeUnionHvm struct`, lines 615 to 664. -/
def fieldsDomainBuildInfoTypeUnionHvm : List (String × GoType) := [
  ("Firmware", GoType.named "string"),
  ("Bios", GoType.named "BiosType"),
  ("Pae", GoType.named "Defbool"),
  ("Apic", GoType.named "Defbool"),
  ("Acpi", GoType.named "Defbool"),
  ("AcpiS3", GoType.named "Defbool"),
  ("AcpiS4", GoType.named "Defbool"),
  ("AcpiLaptopSlate", GoType.named "Defbool"),
  ("Nx", GoType.named "Defbool"),
  ("Viridian", GoType.named "Defbool"),
  ("ViridianEnable", GoType.named "Bitmap"),
  ("ViridianDisable", GoType.named "Bitmap"),
  ("Timeoffset", GoType.named "string"),
  ("Hpet", GoType.named "Defbool"),
  ("VptAlign", GoType.named "Defbool"),
  ("MmioHoleMemkb", GoType.named "uint64"),
  ("TimerMode", GoType.named "TimerMode"),
  ("NestedHvm", GoType.named "Defbool"),
  ("Altp2M", GoType.named "Defbool"),
  ("SystemFirmware", GoType.named "string"),
  ("SmbiosFirmware", GoType.named "string"),
  ("Smbios", GoType.slice (GoType.named "Smbios")),
  ("AcpiFirmware", GoType.named "string"),
  ("Hdtype", GoType.named "Hdtype"),
  ("Nographic", GoType.named "Defbool"),
  ("Vga", GoType.named "VgaInterfaceInfo"),
  ("Vnc", GoType.named "VncInfo"),
  ("Keymap", GoType.named "string"),
  ("Sdl", GoType.named "SdlInfo"),
  ("Spice", GoType.named "SpiceInfo"),
  ("GfxPassthru", GoType.named "Defbool"),
  ("GfxPassthruKind", GoType.named "GfxPassthruKind"),
  ("Serial", GoType.named "string"),
  ("Boot", GoType.named "string"),
  ("Usb", GoType.named "Defbool"),
  ("Usbversion", GoType.named "int"),
  ("Usbdevice", GoType.named "string"),
  ("VkbDevice", GoType.named "Defbool"),
  ("Soundhw", GoType.named "string"),
  ("XenPlatformPci", GoType.named "Defbool"),
  ("UsbdeviceList", GoType.named "StringList"),
  ("VendorDevice", GoType.named "VendorDevice"),
  ("MsVmGenid", GoType.named "MsVmGenid"),
  ("SerialList", GoType.named "StringList"),
  ("Rdm", GoType.named "RdmReserve"),
  ("RdmMemBoundaryMemkb", GoType.named "uint64"),
  ("McaCaps", GoType.named "uint64"),
  ("Pirq", GoType.named "Defbool")]

/-- The fields of `type DomainBuildInfoTypeUnionPv struct`, lines 668 to 677. -/
def fieldsDomainBuildInfoTypeUnionPv : List (String × GoType) := [
  ("Kernel", GoType.named "string"),
  ("SlackMemkb", GoType.named "uint64"),
  ("Bootloader", GoType.named "string"),
  ("BootloaderArgs", GoType.named "StringList"),
  ("Cmdline", GoType.named "string"),
  ("Ramdisk", GoType.named "string"),
  ("Features", GoType.named "string"),
  ("E820Host", GoType.named "Defbool")]

/-- The fields of `type DomainBuildInfoTypeUnionPvh struct`, lines 681 to 686. -/
def fieldsDomainBuildInfoTypeUnionPvh : List (String × GoType) := [
  ("Pvshim", GoType.named "Defbool"),
  ("PvshimPath", GoType.named "string"),
  ("PvshimCmdline", GoType.named "string"),
  ("PvshimExtra", GoType.named "string")]

/-- The fields of `type DeviceVfb struct`, lines 690 to 697. -/
def fieldsDeviceVfb : List (String × GoType) := [
  ("BackendDomid", GoType.named "Domid"),
  ("BackendDomname", GoType.named "string"),
  ("Devid", GoType.named "Devid"),
  ("Vnc", GoType.named "VncInfo"),
  ("Sdl", GoType.named "SdlInfo"),
  ("Keymap", GoType.named "string")]

/-- The fields of `type DeviceVkb struct`, lines 699 to 715. -/
def fieldsDeviceVkb : List (String × GoType) := [
  ("BackendDomid", GoType.named "Domid"),
  ("BackendDomname", GoType.named "string"),
  ("Devid", GoType.named "Devid"),
  ("BackendType", GoType.named "VkbBackend"),
  ("UniqueId", GoType.named "string"),
  ("FeatureDisableKeyboard", GoType.named "bool"),
  ("FeatureDisablePointer", GoType.named "bool"),
  ("FeatureAbsPointer", GoType.named "bool"),
  ("FeatureRawPointer", GoType.named "bool"),
  ("FeatureMultiTouch", GoType.named "bool"),
  ("Width", GoType.named "uint32"),
  ("Height", GoType.named "uint32"),
  ("MultiTouchWidth", GoType.named "uint32"),
  ("MultiTouchHeight", GoType.named "uint32"),
  ("MultiTouchNumContacts", GoType.named "uint32")]

/-- The fields of `type DeviceVirtio struct`, lines 717 to 726. -/
def fieldsDeviceVirtio : List (String × GoType) := [
  ("BackendDomid", GoType.named "Domid"),
  ("BackendDomname", GoType.named "string"),
  ("Type", GoType.named "string"),
  ("Transport", GoType.named "VirtioTransport"),
  ("GrantUsage", GoType.named "Defbool"),
  ("Devid", GoType.named "Devid"),
  ("Irq", GoType.named "uint32"),
  ("Base", GoType.named "uint64")]

/-- The fields of `type DeviceDisk struct`, lines 728 to 754. -/
def fieldsDeviceDisk : List (String × GoType) := [
  ("BackendDomid", GoType.named "Domid"),
  ("BackendDomname", GoType.named "string"),
  ("PdevPath", GoType.named "string"),
  ("Vdev", GoType.named "string"),
  ("Backend", GoType.named "DiskBackend"),
  ("Format", GoType.named "DiskFormat"),
  ("Script", GoType.named "string"),
  ("Removable", GoType.named "int"),
  ("Readwrite", GoType.named "int"),
  ("IsCdrom", GoType.named "int"),
  ("DirectIoSafe", GoType.named "bool"),
  ("DiscardEnable", GoType.named "Defbool"),
  ("Specification", GoType.named "DiskSpecification"),
  ("Transport", GoType.named "DiskTransport"),
  ("Irq", GoType.named "uint32"),
  ("Base", GoType.named "uint64"),
  ("ColoEnable", GoType.named "Defbool"),
  ("ColoRestoreEnable", GoType.named "Defbool"),
  ("ColoHost", GoType.named "string"),
  ("ColoPort", GoType.named "int"),
  ("ColoExport", GoType.named "string"),
  ("ActiveDisk", GoType.named "string"),
  ("HiddenDisk", GoType.named "string"),
  ("Trusted", GoType.named "Defbool"),
  ("GrantUsage", GoType.named "Defbool")]

/-- The fields of `type DeviceNic struct`, lines 756 to 822. -/
def fieldsDeviceNic : List (String × GoType) := [
  ("BackendDomid", GoType.named "Domid"),
  ("BackendDomname", GoType.named "string"),
  ("Devid", GoType.named "Devid"),
  ("Mtu", GoType.named "int"),
  ("Vlan", GoType.named "string"),
  ("Model", GoType.named "string"),
  ("Mac", GoType.named "Mac"),
  ("Ip", GoType.named "string"),
  ("Bridge", GoType.named "string"),
  ("Ifname", GoType.named "string"),
  ("Script", GoType.named "string"),
  ("Nictype", GoType.named "NicType"),
  ("RateBytesPerInterval", GoType.named "uint64"),
  ("RateIntervalUsecs", GoType.named "uint32"),
  ("Gatewaydev", GoType.named "string"),
  ("ColoftForwarddev", GoType.named "string"),
  ("ColoSockMirrorId", GoType.named "string"),
  ("ColoSockMirrorIp", GoType.named "string"),
  ("ColoSockMirrorPort", GoType.named "string"),
  ("ColoSockComparePriInId", GoType.named "string"),
  ("ColoSockComparePriInIp", GoType.named "string"),
  ("ColoSockComparePriInPort", GoType.named "string"),
  ("ColoSockCompareSecInId", GoType.named "string"),
  ("ColoSockCompareSecInIp", GoType.named "string"),
  ("ColoSockCompareSecInPort", GoType.named "string"),
  ("ColoSockCompareNotifyId", GoType.named "string"),
  ("ColoSockCompareNotifyIp", GoType.named "string"),
  ("ColoSockCompareNotifyPort", GoType.named "string"),
  ("ColoSockRedirector0Id", GoType.named "string"),
  ("ColoSockRedirector0Ip", GoType.named "string"),
  ("ColoSockRedirector0Port", GoType.named "string"),
  ("ColoSockRedirector1Id", GoType.named "string"),
  ("ColoSockRedirector1Ip", GoType.named "string"),
  ("ColoSockRedirector1Port", GoType.named "string"),
  ("ColoSockRedirector2Id", GoType.named "string"),
  ("ColoSockRedirector2Ip", GoType.named "string"),
  ("ColoSockRedirector2Port", GoType.named "string"),
  ("ColoFilterMirrorQueue", GoType.named "string"),
  ("ColoFilterMirrorOutdev", GoType.named "string"),
  ("ColoFilterRedirector0Queue", GoType.named "string"),
  ("ColoFilterRedirector0Indev", GoType.named "string"),
  ("ColoFilterRedirector0Outdev", GoType.named "string"),
  ("ColoFilterRedirector1Queue", GoType.named "string"),
  ("ColoFilterRedirector1Indev", GoType.named "string"),
  ("ColoFilterRedirector1Outdev", GoType.named "string"),
  ("ColoComparePriIn", GoType.named "string"),
  ("ColoCompareSecIn", GoType.named "string"),
  ("ColoCompareOut", GoType.named "string"),
  ("ColoCompareNotifyDev", GoType.named "string"),
  ("ColoSockSecRedirector0Id", GoType.named "string"),
  ("ColoSockSecRedirector0Ip", GoType.named "string"),
  ("ColoSockSecRedirector0Port", GoType.named "string"),
  ("ColoSockSecRedirector1Id", GoType.named "string"),
  ("ColoSockSecRedirector1Ip", GoType.named "string"),
  ("ColoSockSecRedirector1Port", GoType.named "string"),
  ("ColoFilterSecRedirector0Queue", GoType.named "string"),
  ("ColoFilterSecRedirector0Indev", GoType.named "string"),
  ("ColoFilterSecRedirector0Outdev", GoType.named "string"),
  ("ColoFilterSecRedirector1Queue", GoType.named "string"),
  ("ColoFilterSecRedirector1Indev", GoType.named "string"),
  ("ColoFilterSecRedirector1Outdev", GoType.named "string"),
  ("ColoFilterSecRewriter0Queue", GoType.named "string"),
  ("ColoCheckpointHost", GoType.named "string"),
  ("ColoCheckpointPort", GoType.named "string"),
  ("Trusted", GoType.named "Defbool")]

/-- The fields of `type DevicePci struct`, lines 824 to 837. -/
def fieldsDevicePci : List (String × GoType) := [
  ("Func", GoType.named "byte"),
  ("Dev", GoType.named "byte"),
  ("Bus", GoType.named "byte"),
  ("Domain", GoType.named "int"),
  ("Vdevfn", GoType.named "uint32"),
  ("VfuncMask", GoType.named "uint32"),
  ("Msitranslate", GoType.named "bool"),
  ("PowerMgmt", GoType.named "bool"),
  ("Permissive", GoType.named "bool"),
  ("Seize", GoType.named "bool"),
  ("RdmPolicy", GoType.named "RdmReservePolicy"),
  ("Name", GoType.named "string")]

/-- The fields of `type DeviceRdm struct`, lines 839 to 843. -/
def fieldsDeviceRdm : List (String × GoType) := [
  ("Start", GoType.named "uint64"),
  ("Size", GoType.named "uint64"),
  ("Policy", GoType.named "RdmReservePolicy")]

/-- The `const` block at lines 846 to 851: the constants of `UsbctrlType`. -/
def constsUsbctrlType : List ConstSpec := [
  ⟨"UsbctrlTypeAuto", "UsbctrlType", 0⟩,
  ⟨"UsbctrlTypePv", "UsbctrlType", 1⟩,
  ⟨"UsbctrlTypeDevicemodel", "UsbctrlType", 2⟩,
  ⟨"UsbctrlTypeQusb", "UsbctrlType", 3⟩]

/-- The `const` block at lines 854 to 856: the constants of `UsbdevType`. -/
def constsUsbdevType : List ConstSpec := [
  ⟨"UsbdevTypeHostdev", "UsbdevType", 1⟩]

/-- The fields of `type DeviceUsbctrl struct`, lines 858 to 865. -/
def fieldsDeviceUsbctrl : List (String × GoType) := [
  ("Type", GoType.named "UsbctrlType"),
  ("Devid", GoType.named "Devid"),
  ("Version", GoType.named "int"),
  ("Ports", GoType.named "int"),
  ("BackendDomid", GoType.named "Domid"),
  ("BackendDomname", GoType.named "string")]

/-- The fields of `type DeviceUsbdev struct`, lines 867 to 872. -/
def fieldsDeviceUsbdev : List (String × GoType) := [
  ("Ctrl", GoType.named "Devid"),
  ("Port", GoType.named "int"),
  ("Type", GoType.named "UsbdevType"),
  ("TypeUnion", GoType.named "DeviceUsbdevTypeUnion")]

/-- The fields of `type DeviceUsbdevTypeUnionHostdev struct`, lines 878 to 881. -/
def fieldsDeviceUsbdevTypeUnionHostdev : List (String × GoType) := [
  ("Hostbus", GoType.named "byte"),
  ("Hostaddr", GoType.named "byte")]

/-- The fields of `type DeviceDtdev struct`, lines 885 to 887. -/
def fieldsDeviceDtdev : List (String × GoType) := [
  ("Path", GoType.named "string")]

/-- The fields of `type DeviceVtpm struct`, lines 889 to 894. -/
def fieldsDeviceVtpm : List (String × GoType) := [
  ("BackendDomid", GoType.named "Domid"),
  ("BackendDomname", GoType.named "string"),
  ("Devid", GoType.named "Devid"),
  ("Uuid", GoType.named "Uuid")]

/-- The fields of `type DeviceP9 struct`, lines 896 to 908. -/
def fieldsDeviceP9 : List (String × GoType) := [
  ("BackendDomid", GoType.named "Domid"),
  ("BackendDomname", GoType.named "string"),
  ("Tag", GoType.named "string"),
  ("Path", GoType.named "string"),
  ("SecurityModel", GoType.named "string"),
  ("Devid", GoType.named "Devid"),
  ("Type", GoType.named "P9Type"),
  ("MaxSpace", GoType.named "int"),
  ("MaxFiles", GoType.named "int"),
  ("MaxOpenFiles", GoType.named "int"),
  ("AutoDelete", GoType.named "bool")]

/-- The fields of `type DevicePvcallsif struct`, lines 910 to 914. -/
def fieldsDevicePvcallsif : List (String × GoType) := [
  ("BackendDomid", GoType.named "Domid"),
  ("BackendDomname", GoType.named "string"),
  ("Devid", GoType.named "Devid")]

/-- The fields of `type DeviceChannel struct`, lines 916 to 923. -/
def fieldsDeviceChannel : List (String × GoType) := [
  ("BackendDomid", GoType.named "Domid"),
  ("BackendDomname", GoType.named "string"),
  ("Devid", GoType.named "Devid"),
  ("Name", GoType.named "string"),
  ("Connection", GoType.named "ChannelConnection"),
  ("ConnectionUnion", GoType.named "DeviceChannelConnectionUnion")]

/-- The fields of `type DeviceChannelConnectionUnionSocket struct`, lines 929 to 931. -/
def fieldsDeviceChannelConnectionUnionSocket : List (String × GoType) := [
  ("Path", GoType.named "string")]

/-- The fields of `type ConnectorParam struct`, lines 935 to 939. -/
def fieldsConnectorParam : List (String × GoType) := [
  ("UniqueId", GoType.named "string"),
  ("Width", GoType.named "uint32"),
  ("Height", GoType.named "uint32")]

/-- The fields of `type DeviceVdispl struct`, lines 941 to 947. -/
def fieldsDeviceVdispl : List (String × GoType) := [
  ("BackendDomid", GoType.named "Domid"),
  ("BackendDomname", GoType.named "string"),
  ("Devid", GoType.named "Devid"),
  ("BeAlloc", GoType.named "bool"),
  ("Connectors", GoType.slice (GoType.named "ConnectorParam"))]

/-- The `const` block at lines 950 to 976: the constants of `VsndPcmFormat`. -/
def constsVsndPcmFormat : List ConstSpec := [
  ⟨"VsndPcmFormatS8", "VsndPcmFormat", 1⟩,
  ⟨"VsndPcmFormatU8", "VsndPcmFormat", 2⟩,
  ⟨"VsndPcmFormatS16Le", "VsndPcmFormat", 3⟩,
  ⟨"VsndPcmFormatS16Be", "VsndPcmFormat", 4⟩,
  ⟨"VsndPcmFormatU16Le", "VsndPcmFormat", 5⟩,
  ⟨"VsndPcmFormatU16Be", "VsndPcmFormat", 6⟩,
  ⟨"VsndPcmFormatS24Le", "VsndPcmFormat", 7⟩,
  ⟨"VsndPcmFormatS24Be", "VsndPcmFormat", 8⟩,
  ⟨"VsndPcmFormatU24Le", "VsndPcmFormat", 9⟩,
  ⟨"VsndPcmFormatU24Be", "VsndPcmFormat", 10⟩,
  ⟨"VsndPcmFormatS32Le", "VsndPcmFormat", 11⟩,
  ⟨"VsndPcmFormatS32Be", "VsndPcmFormat", 12⟩,
  ⟨"VsndPcmFormatU32Le", "VsndPcmFormat", 13⟩,
  ⟨"VsndPcmFormatU32Be", "VsndPcmFormat", 14⟩,
  ⟨"VsndPcmFormatF32Le", "VsndPcmFormat", 15⟩,
  ⟨"VsndPcmFormatF32Be", "VsndPcmFormat", 16⟩,
  ⟨"VsndPcmFormatF64Le", "VsndPcmFormat", 17⟩,
  ⟨"VsndPcmFormatF64Be", "VsndPcmFormat", 18⟩,
  ⟨"VsndPcmFormatIec958SubframeLe", "VsndPcmFormat", 19⟩,
  ⟨"VsndPcmFormatIec958SubframeBe", "VsndPcmFormat", 20⟩,
  ⟨"VsndPcmFormatMuLaw", "VsndPcmFormat", 21⟩,
  ⟨"VsndPcmFormatALaw", "VsndPcmFormat", 22⟩,
  ⟨"VsndPcmFormatImaAdpcm", "VsndPcmFormat", 23⟩,
  ⟨"VsndPcmFormatMpeg", "VsndPcmFormat", 24⟩,
  ⟨"VsndPcmFormatGsm", "VsndPcmFormat", 25⟩]

/-- The fields of `type VsndParams struct`, lines 978 to 984. -/
def fieldsVsndParams : List (String × GoType) := [
  ("SampleRates", GoType.slice (GoType.named "uint32")),
  ("SampleFormats", GoType.slice (GoType.named "VsndPcmFormat")),
  ("ChannelsMin", GoType.named "uint32"),
  ("ChannelsMax", GoType.named "uint32"),
  ("BufferSize", GoType.named "uint32")]

/-- The `const` block at lines 987 to 990: the constants of `VsndStreamType`. -/
def constsVsndStreamType : List ConstSpec := [
  ⟨"VsndStreamTypeP", "VsndStreamType", 1⟩,
  ⟨"VsndStreamTypeC", "VsndStreamType", 2⟩]

/-- The fields of `type VsndStream struct`, lines 992 to 996. -/
def fieldsVsndStream : List (String × GoType) := [
  ("UniqueId", GoType.named "string"),
  ("Type", GoType.named "VsndStreamType"),
  ("Params", GoType.named "VsndParams")]

/-- The fields of `type VsndPcm struct`, lines 998 to 1002. -/
def fieldsVsndPcm : List (String × GoType) := [
  ("Name", GoType.named "string"),
  ("Params", GoType.named "VsndParams"),
  ("Streams", GoType.slice (GoType.named "VsndStream"))]

/-- The fields of `type DeviceVsnd struct`, lines 1004 to 1012. -/
def fieldsDeviceVsnd : List (String × GoType) := [
  ("BackendDomid", GoType.named "Domid"),
  ("BackendDomname", GoType.named "string"),
  ("Devid", GoType.named "Devid"),
  ("ShortName", GoType.named "string"),
  ("LongName", GoType.named "string"),
  ("Params", GoType.named "VsndParams"),
  ("Pcms", GoType.slice (GoType.named "VsndPcm"))]

/-- The fields of `type DomainConfig struct`, lines 1014 to 1038. -/
def fieldsDomainConfig : List (String × GoType) := [
  ("CInfo", GoType.named "DomainCreateInfo"),
  ("BInfo", GoType.named "DomainBuildInfo"),
  ("Disks", GoType.slice (GoType.named "DeviceDisk")),
  ("Nics", GoType.slice (GoType.named "DeviceNic")),
  ("Pcidevs", GoType.slice (GoType.named "DevicePci")),
  ("Rdms", GoType.slice (GoType.named "DeviceRdm")),
  ("Dtdevs", GoType.slice (GoType.named "DeviceDtdev")),
  ("Vfbs", GoType.slice (GoType.named "DeviceVfb")),
  ("Vkbs", GoType.slice (GoType.named "DeviceVkb")),
  ("Virtios", GoType.slice (GoType.named "DeviceVirtio")),
  ("Vtpms", GoType.slice (GoType.named "DeviceVtpm")),
  ("P9S", GoType.slice (GoType.named "DeviceP9")),
  ("Pvcallsifs", GoType.slice (GoType.named "DevicePvcallsif")),
  ("Vdispls", GoType.slice (GoType.named "DeviceVdispl")),
  ("Vsnds", GoType.slice (GoType.named "DeviceVsnd")),
  ("Channels", GoType.slice (GoType.named "DeviceChannel")),
  ("Usbctrls", GoType.slice (GoType.named "DeviceUsbctrl")),
  ("Usbdevs", GoType.slice (GoType.named "DeviceUsbdev")),
  ("OnPoweroff", GoType.named "ActionOnShutdown"),
  ("OnReboot", GoType.named "ActionOnShutdown"),
  ("OnWatchdog", GoType.named "ActionOnShutdown"),
  ("OnCrash", GoType.named "ActionOnShutdown"),
  ("OnSoftReset", GoType.named "ActionOnShutdown")]

/-- The fields of `type Diskinfo struct`, lines 1040 to 1049. -/
def fieldsDiskinfo : List (String × GoType) := [
  ("Backend", GoType.named "string"),
  ("BackendId", GoType.named "uint32"),
  ("Frontend", GoType.named "string"),
  ("FrontendId", GoType.named "uint32"),
  ("Devid", GoType.named "Devid"),
  ("State", GoType.named "int"),
  ("Evtch", GoType.named "int"),
  ("Rref", GoType.named "int")]

/-- The fields of `type Nicinfo struct`, lines 1051 to 1061. -/
def fieldsNicinfo : List (String × GoType) := [
  ("Backend", GoType.named "string"),
  ("BackendId", GoType.named "uint32"),
  ("Frontend", GoType.named "string"),
  ("FrontendId", GoType.named "uint32"),
  ("Devid", GoType.named "Devid"),
  ("State", GoType.named "int"),
  ("Evtch", GoType.named "int"),
  ("RrefTx", GoType.named "int"),
  ("RrefRx", GoType.named "int")]

/-- The fields of `type Vtpminfo struct`, lines 1063 to 1073. -/
def fieldsVtpminfo : List (String × GoType) := [
  ("Backend", GoType.named "string"),
  ("BackendId", GoType.named "uint32"),
  ("Frontend", GoType.named "string"),
  ("FrontendId", GoType.named "uint32"),
  ("Devid", GoType.named "Devid"),
  ("State", GoType.named "int"),
  ("Evtch", GoType.named "int"),
  ("Rref", GoType.named "int"),
  ("Uuid", GoType.named "Uuid")]

/-- The fields of `type Usbctrlinfo struct`, lines 1075 to 1088. -/
def fieldsUsbctrlinfo : List (String × GoType) := [
  ("Type", GoType.named "UsbctrlType"),
  ("Devid", GoType.named "Devid"),
  ("Version", GoType.named "int"),
  ("Ports", GoType.named "int"),
  ("Backend", GoType.named "string"),
  ("BackendId", GoType.named "uint32"),
  ("Frontend", GoType.named "string"),
  ("FrontendId", GoType.named "uint32"),
  ("State", GoType.named "int"),
  ("Evtch", GoType.named "int"),
  ("RefUrb", GoType.named "int"),
  ("RefConn", GoType.named "int")]

/-- The fields of `type Vcpuinfo struct`, lines 1090 to 1099. -/
def fieldsVcpuinfo : List (String × GoType) := [
  ("Vcpuid", GoType.named "uint32"),
  ("Cpu", GoType.named "uint32"),
  ("Online", GoType.named "bool"),
  ("Blocked", GoType.named "bool"),
  ("Running", GoType.named "bool"),
  ("VcpuTime", GoType.named "uint64"),
  ("Cpumap", GoType.named "Bitmap"),
  ("CpumapSoft", GoType.named "Bitmap")]

/-- The fields of `type Physinfo struct`, lines 1101 to 1127. -/
def fieldsPhysinfo : List (String × GoType) := [
  ("ThreadsPerCore", GoType.named "uint32"),
  ("CoresPerSocket", GoType.named "uint32"),
  ("MaxCpuId", GoType.named "uint32"),
  ("NrCpus", GoType.named "uint32"),
  ("CpuKhz", GoType.named "uint32"),
  ("TotalPages", GoType.named "uint64"),
  ("FreePages", GoType.named "uint64"),
  ("ScrubPages", GoType.named "uint64"),
  ("OutstandingPages", GoType.named "uint64"),
  ("SharingFreedPages", GoType.named "uint64"),
  ("SharingUsedFrames", GoType.named "uint64"),
  ("MaxPossibleMfn", GoType.named "uint64"),
  ("NrNodes", GoType.named "uint32"),
  ("HwCap", GoType.named "Hwcap"),
  ("CapHvm", GoType.named "bool"),
  ("CapPv", GoType.named "bool"),
  ("CapHvmDirectio", GoType.named "bool"),
  ("CapHap", GoType.named "bool"),
  ("CapShadow", GoType.named "bool"),
  ("CapIommuHapPtShare", GoType.named "bool"),
  ("CapVmtrace", GoType.named "bool"),
  ("CapVpmu", GoType.named "bool"),
  ("CapGnttabV1", GoType.named "bool"),
  ("CapGnttabV2", GoType.named "bool"),
  ("ArchCapabilities", GoType.named "uint32")]

/-- The fields of `type Connectorinfo struct`, lines 1129 to 1137. -/
def fieldsConnectorinfo : List (String × GoType) := [
  ("UniqueId", GoType.named "string"),
  ("Width", GoType.named "uint32"),
  ("Height", GoType.named "uint32"),
  ("ReqEvtch", GoType.named "int"),
  ("ReqRref", GoType.named "int"),
  ("EvtEvtch", GoType.named "int"),
  ("EvtRref", GoType.named "int")]

/-- The fields of `type Vdisplinfo struct`, lines 1139 to 1148. -/
def fieldsVdisplinfo : List (String × GoType) := [
  ("Backend", GoType.named "string"),
  ("BackendId", GoType.named "uint32"),
  ("Frontend", GoType.named "string"),
  ("FrontendId", GoType.named "uint32"),
  ("Devid", GoType.named "Devid"),
  ("State", GoType.named "int"),
  ("BeAlloc", GoType.named "bool"),
  ("Connectors", GoType.slice (GoType.named "Connectorinfo"))]

/-- The fields of `type Streaminfo struct`, lines 1150 to 1153. -/
def fieldsStreaminfo : List (String × GoType) := [
  ("ReqEvtch", GoType.named "int"),
  ("ReqRref", GoType.named "int")]

/-- The fields of `type Pcminfo struct`, lines 1155 to 1157. -/
def fieldsPcminfo : List (String × GoType) := [
  ("Streams", GoType.slice (GoType.named "Streaminfo"))]

/-- The fields of `type Vsndinfo struct`, lines 1159 to 1167. -/
def fieldsVsndinfo : List (String × GoType) := [
  ("Backend", GoType.named "string"),
  ("BackendId", GoType.named "uint32"),
  ("Frontend", GoType.named "string"),
  ("FrontendId", GoType.named "uint32"),
  ("Devid", GoType.named "Devid"),
  ("State", GoType.named "int"),
  ("Pcms", GoType.slice (GoType.named "Pcminfo"))]

/-- The fields of `type Vkbinfo struct`, lines 1169 to 1178. -/
def fieldsVkbinfo : List (String × GoType) := [
  ("Backend", GoType.named "string"),
  ("BackendId", GoType.named "uint32"),
  ("Frontend", GoType.named "string"),
  ("FrontendId", GoType.named "uint32"),
  ("Devid", GoType.named "Devid"),
  ("State", GoType.named "int"),
  ("Evtch", GoType.named "int"),
  ("Rref", GoType.named "int")]

/-- The fields of `type Numainfo struct`, lines 1180 to 1184. -/
def fieldsNumainfo : List (String × GoType) := [
  ("Size", GoType.named "uint64"),
  ("Free", GoType.named "uint64"),
  ("Dists", GoType.slice (GoType.named "uint32"))]

/-- The fields of `type Cputopology struct`, lines 1186 to 1190. -/
def fieldsCputopology : List (String × GoType) := [
  ("Core", GoType.named "uint32"),
  ("Socket", GoType.named "uint32"),
  ("Node", GoType.named "uint32")]

/-- The fields of `type Pcitopology struct`, lines 1192 to 1197. -/
def fieldsPcitopology : List (String × GoType) := [
  ("Seg", GoType.named "uint16"),
  ("Bus", GoType.named "byte"),
  ("Devfn", GoType.named "byte"),
  ("Node", GoType.named "uint32")]

/-- The fields of `type SchedCreditParams struct`, lines 1199 to 1203. -/
def fieldsSchedCreditParams : List (String × GoType) := [
  ("TsliceMs", GoType.named "int"),
  ("RatelimitUs", GoType.named "int"),
  ("VcpuMigrDelayUs", GoType.named "int")]

/-- The fields of `type SchedCredit2Params struct`, lines 1205 to 1207. -/
def fieldsSchedCredit2Params : List (String × GoType) := [
  ("RatelimitUs", GoType.named "int")]

/-- The fields of `type DomainRemusInfo struct`, lines 1209 to 1219. -/
def fieldsDomainRemusInfo : List (String × GoType) := [
  ("Interval", GoType.named "int"),
  ("AllowUnsafe", GoType.named "Defbool"),
  ("Blackhole", GoType.named "Defbool"),
  ("Compression", GoType.named "Defbool"),
  ("Netbuf", GoType.named "Defbool"),
  ("Netbufscript", GoType.named "string"),
  ("Diskbuf", GoType.named "Defbool"),
  ("Colo", GoType.named "Defbool"),
  ("UserspaceColoProxy", GoType.named "Defbool")]

/-- The `const` block at lines 1222 to 1228: the constants of `EventType`. -/
def constsEventType : List ConstSpec := [
  ⟨"EventTypeDomainShutdown", "EventType", 1⟩,
  ⟨"EventTypeDomainDeath", "EventType", 2⟩,
  ⟨"EventTypeDiskEject", "EventType", 3⟩,
  ⟨"EventTypeOperationComplete", "EventType", 4⟩,
  ⟨"EventTypeDomainCreateConsoleAvailable", "EventType", 5⟩]

/-- The fields of `type Event struct`, lines 1230 to 1237. -/
def fieldsEvent : List (String × GoType) := [
  ("Link", GoType.named "EvLink"),
  ("Domid", GoType.named "Domid"),
  ("Domuuid", GoType.named "Uuid"),
  ("ForUser", GoType.named "uint64"),
  ("Type", GoType.named "EventType"),
  ("TypeUnion", GoType.named "EventTypeUnion")]

/-- The fields of `type EventTypeUnionDomainShutdown struct`, lines 1243 to 1245. -/
def fieldsEventTypeUnionDomainShutdown : List (String × GoType) := [
  ("ShutdownReason", GoType.named "byte")]

/-- The fields of `type EventTypeUnionDiskEject struct`, lines 1249 to 1252. -/
def fieldsEventTypeUnionDiskEject : List (String × GoType) := [
  ("Vdev", GoType.named "string"),
  ("Disk", GoType.named "DeviceDisk")]

/-- The fields of `type EventTypeUnionOperationComplete struct`, lines 1256 to 1258. -/
def fieldsEventTypeUnionOperationComplete : List (String × GoType) := [
  ("Rc", GoType.named "int")]

/-- The `const` block at lines 1263 to 1267: the constants of `PsrCmtType`. -/
def constsPsrCmtType : List ConstSpec := [
  ⟨"PsrCmtTypeCacheOccupancy", "PsrCmtType", 1⟩,
  ⟨"PsrCmtTypeTotalMemCount", "PsrCmtType", 2⟩,
  ⟨"PsrCmtTypeLocalMemCount", "PsrCmtType", 3⟩]

/-- The `const` block at lines 1270 to 1277: the constants of `PsrCbmType`. -/
def constsPsrCbmType : List ConstSpec := [
  ⟨"PsrCbmTypeUnknown", "PsrCbmType", 0⟩,
  ⟨"PsrCbmTypeL3Cbm", "PsrCbmType", 1⟩,
  ⟨"PsrCbmTypeL3CbmCode", "PsrCbmType", 2⟩,
  ⟨"PsrCbmTypeL3CbmData", "PsrCbmType", 3⟩,
  ⟨"PsrCbmTypeL2Cbm", "PsrCbmType", 4⟩,
  ⟨"PsrCbmTypeMbaThrtl", "PsrCbmType", 5⟩]

/-- The fields of `type PsrCatInfo struct`, lines 1279 to 1284. -/
def fieldsPsrCatInfo : List (String × GoType) := [
  ("Id", GoType.named "uint32"),
  ("CosMax", GoType.named "uint32"),
  ("CbmLen", GoType.named "uint32"),
  ("CdpEnabled", GoType.named "bool")]

/-- The `const` block at lines 1287 to 1290: the constants of `PsrFeatType`. -/
def constsPsrFeatType : List ConstSpec := [
  ⟨"PsrFeatTypeCat", "PsrFeatType", 1⟩,
  ⟨"PsrFeatTypeMba", "PsrFeatType", 2⟩]

/-- The fields of `type PsrHwInfo struct`, lines 1292 to 1296. -/
def fieldsPsrHwInfo : List (String × GoType) := [
  ("Id", GoType.named "uint32"),
  ("Type", GoType.named "PsrFeatType"),
  ("TypeUnion", GoType.named "PsrHwInfoTypeUnion")]

/-- The fields of `type PsrHwInfoTypeUnionCat struct`, lines 1302 to 1306. -/
def fieldsPsrHwInfoTypeUnionCat : List (String × GoType) := [
  ("CosMax", GoType.named "uint32"),
  ("CbmLen", GoType.named "uint32"),
  ("CdpEnabled", GoType.named "bool")]

/-- The fields of `type PsrHwInfoTypeUnionMba struct`, lines 1310 to 1314. -/
def fieldsPsrHwInfoTypeUnionMba : List (String × GoType) := [
  ("CosMax", GoType.named "uint32"),
  ("ThrtlMax", GoType.named "uint32"),
  ("Linear", GoType.named "bool")]

/-- The declarations of `types.gen.go`, in source order. -/
def typesGen : List Decl := [
  Decl.typeDef "Error" "int",
  Decl.constBlock constsError,
  Decl.typeDef "DomainType" "int",
  Decl.constBlock constsDomainType,
  Decl.typeDef "RdmReserveStrategy" "int",
  Decl.constBlock constsRdmReserveStrategy,
  Decl.typeDef "RdmReservePolicy" "int",
  Decl.constBlock constsRdmReservePolicy,
  Decl.typeDef "ChannelConnection" "int",
  Decl.constBlock constsChannelConnection,
  Decl.typeDef "DeviceModelVersion" "int",
  Decl.constBlock constsDeviceModelVersion,
  Decl.typeDef "ConsoleType" "int",
  Decl.constBlock constsConsoleType,
  Decl.typeDef "DiskFormat" "int",
  Decl.constBlock constsDiskFormat,
  Decl.typeDef "DiskBackend" "int",
  Decl.constBlock constsDiskBackend,
  Decl.typeDef "DiskSpecification" "int",
  Decl.constBlock constsDiskSpecification,
  Decl.typeDef "DiskTransport" "int",
  Decl.constBlock constsDiskTransport,
  Decl.typeDef "NicType" "int",
  Decl.constBlock constsNicType,
  Decl.typeDef "P9Type" "int",
  Decl.constBlock constsP9Type,
  Decl.typeDef "ActionOnShutdown" "int",
  Decl.constBlock constsActionOnShutdown,
  Decl.typeDef "Trigger" "int",
  Decl.constBlock constsTrigger,
  Decl.typeDef "TscMode" "int",
  Decl.constBlock constsTscMode,
  Decl.typeDef "GfxPassthruKind" "int",
  Decl.constBlock constsGfxPassthruKind,
  Decl.typeDef "TimerMode" "int",
  Decl.constBlock constsTimerMode,
  Decl.typeDef "BiosType" "int",
  Decl.constBlock constsBiosType,
  Decl.typeDef "Scheduler" "int",
  Decl.constBlock constsScheduler,
  Decl.typeDef "ShutdownReason" "int",
  Decl.constBlock constsShutdownReason,
  Decl.typeDef "VgaInterfaceType" "int",
  Decl.constBlock constsVgaInterfaceType,
  Decl.typeDef "VendorDevice" "int",
  Decl.constBlock constsVendorDevice,
  Decl.typeDef "ViridianEnlightenment" "int",
  Decl.constBlock constsViridianEnlightenment,
  Decl.typeDef "Hdtype" "int",
  Decl.constBlock constsHdtype,
  Decl.typeDef "CheckpointedStream" "int",
  Decl.constBlock constsCheckpointedStream,
  Decl.typeDef "VuartType" "int",
  Decl.constBlock constsVuartType,
  Decl.typeDef "VkbBackend" "int",
  Decl.constBlock constsVkbBackend,
  Decl.typeDef "VirtioTransport" "int",
  Decl.constBlock constsVirtioTransport,
  Decl.typeDef "Passthrough" "int",
  Decl.constBlock constsPassthrough,
  Decl.structDef "IoportRange" fieldsIoportRange,
  Decl.structDef "IomemRange" fieldsIomemRange,
  Decl.structDef "VgaInterfaceInfo" fieldsVgaInterfaceInfo,
  Decl.structDef "VncInfo" fieldsVncInfo,
  Decl.structDef "SpiceInfo" fieldsSpiceInfo,
  Decl.structDef "SdlInfo" fieldsSdlInfo,
  Decl.structDef "Dominfo" fieldsDominfo,
  Decl.structDef "Cpupoolinfo" fieldsCpupoolinfo,
  Decl.structDef "Channelinfo" fieldsChannelinfo,
  Decl.interfaceDef "ChannelinfoConnectionUnion" ["isChannelinfoConnectionUnion"],
  Decl.structDef "ChannelinfoConnectionUnionPty" fieldsChannelinfoConnectionUnionPty,
  Decl.methodDef "ChannelinfoConnectionUnionPty" "isChannelinfoConnectionUnion",
  Decl.structDef "Vminfo" fieldsVminfo,
  Decl.structDef "VersionInfo" fieldsVersionInfo,
  Decl.typeDef "SmbiosType" "int",
  Decl.constBlock constsSmbiosType,
  Decl.structDef "Smbios" fieldsSmbios,
  Decl.structDef "DomainCreateInfo" fieldsDomainCreateInfo,
  Decl.structDef "DomainRestoreParams" fieldsDomainRestoreParams,
  Decl.structDef "SchedParams" fieldsSchedParams,
  Decl.structDef "VcpuSchedParams" fieldsVcpuSchedParams,
  Decl.structDef "DomainSchedParams" fieldsDomainSchedParams,
  Decl.structDef "VnodeInfo" fieldsVnodeInfo,
  Decl.typeDef "GicVersion" "int",
  Decl.constBlock constsGicVersion,
  Decl.typeDef "TeeType" "int",
  Decl.constBlock constsTeeType,
  Decl.typeDef "SveType" "int",
  Decl.constBlock constsSveType,
  Decl.structDef "RdmReserve" fieldsRdmReserve,
  Decl.typeDef "Altp2MMode" "int",
  Decl.constBlock constsAltp2MMode,
  Decl.structDef "DomainBuildInfo" fieldsDomainBuildInfo,
  Decl.interfaceDef "DomainBuildInfoTypeUnion" ["isDomainBuildInfoTypeUnion"],
  Decl.structDef "DomainBuildInfoTypeUnionHvm" fieldsDomainBuildInfoTypeUnionHvm,
  Decl.methodDef "DomainBuildInfoTypeUnionHvm" "isDomainBuildInfoTypeUnion",
  Decl.structDef "DomainBuildInfoTypeUnionPv" fieldsDomainBuildInfoTypeUnionPv,
  Decl.methodDef "DomainBuildInfoTypeUnionPv" "isDomainBuildInfoTypeUnion",
  Decl.structDef "DomainBuildInfoTypeUnionPvh" fieldsDomainBuildInfoTypeUnionPvh,
  Decl.methodDef "DomainBuildInfoTypeUnionPvh" "isDomainBuildInfoTypeUnion",
  Decl.structDef "DeviceVfb" fieldsDeviceVfb,
  Decl.structDef "DeviceVkb" fieldsDeviceVkb,
  Decl.structDef "DeviceVirtio" fieldsDeviceVirtio,
  Decl.structDef "DeviceDisk" fieldsDeviceDisk,
  Decl.structDef "DeviceNic" fieldsDeviceNic,
  Decl.structDef "DevicePci" fieldsDevicePci,
  Decl.structDef "DeviceRdm" fieldsDeviceRdm,
  Decl.typeDef "UsbctrlType" "int",
  Decl.constBlock constsUsbctrlType,
  Decl.typeDef "UsbdevType" "int",
  Decl.constBlock constsUsbdevType,
  Decl.structDef "DeviceUsbctrl" fieldsDeviceUsbctrl,
  Decl.structDef "DeviceUsbdev" fieldsDeviceUsbdev,
  Decl.interfaceDef "DeviceUsbdevTypeUnion" ["isDeviceUsbdevTypeUnion"],
  Decl.structDef "DeviceUsbdevTypeUnionHostdev" fieldsDeviceUsbdevTypeUnionHostdev,
  Decl.methodDef "DeviceUsbdevTypeUnionHostdev" "isDeviceUsbdevTypeUnion",
  Decl.structDef "DeviceDtdev" fieldsDeviceDtdev,
  Decl.structDef "DeviceVtpm" fieldsDeviceVtpm,
  Decl.structDef "DeviceP9" fieldsDeviceP9,
  Decl.structDef "DevicePvcallsif" fieldsDevicePvcallsif,
  Decl.structDef "DeviceChannel" fieldsDeviceChannel,
  Decl.interfaceDef "DeviceChannelConnectionUnion" ["isDeviceChannelConnectionUnion"],
  Decl.structDef "DeviceChannelConnectionUnionSocket" fieldsDeviceChannelConnectionUnionSocket,
  Decl.methodDef "DeviceChannelConnectionUnionSocket" "isDeviceChannelConnectionUnion",
  Decl.structDef "ConnectorParam" fieldsConnectorParam,
  Decl.structDef "DeviceVdispl" fieldsDeviceVdispl,
  Decl.typeDef "VsndPcmFormat" "int",
  Decl.constBlock constsVsndPcmFormat,
  Decl.structDef "VsndParams" fieldsVsndParams,
  Decl.typeDef "VsndStreamType" "int",
  Decl.constBlock constsVsndStreamType,
  Decl.structDef "VsndStream" fieldsVsndStream,
  Decl.structDef "VsndPcm" fieldsVsndPcm,
  Decl.structDef "DeviceVsnd" fieldsDeviceVsnd,
  Decl.structDef "DomainConfig" fieldsDomainConfig,
  Decl.structDef "Diskinfo" fieldsDiskinfo,
  Decl.structDef "Nicinfo" fieldsNicinfo,
  Decl.structDef "Vtpminfo" fieldsVtpminfo,
  Decl.structDef "Usbctrlinfo" fieldsUsbctrlinfo,
  Decl.structDef "Vcpuinfo" fieldsVcpuinfo,
  Decl.structDef "Physinfo" fieldsPhysinfo,
  Decl.structDef "Connectorinfo" fieldsConnectorinfo,
  Decl.structDef "Vdisplinfo" fieldsVdisplinfo,
  Decl.structDef "Streaminfo" fieldsStreaminfo,
  Decl.structDef "Pcminfo" fieldsPcminfo,
  Decl.structDef "Vsndinfo" fieldsVsndinfo,
  Decl.structDef "Vkbinfo" fieldsVkbinfo,
  Decl.structDef "Numainfo" fieldsNumainfo,
  Decl.structDef "Cputopology" fieldsCputopology,
  Decl.structDef "Pcitopology" fieldsPcitopology,
  Decl.structDef "SchedCreditParams" fieldsSchedCreditParams,
  Decl.structDef "SchedCredit2Params" fieldsSchedCredit2Params,
  Decl.structDef "DomainRemusInfo" fieldsDomainRemusInfo,
  Decl.typeDef "EventType" "int",
  Decl.constBlock constsEventType,
  Decl.structDef "Event" fieldsEvent,
  Decl.interfaceDef "EventTypeUnion" ["isEventTypeUnion"],
  Decl.structDef "EventTypeUnionDomainShutdown" fieldsEventTypeUnionDomainShutdown,
  Decl.methodDef "EventTypeUnionDomainShutdown" "isEventTypeUnion",
  Decl.structDef "EventTypeUnionDiskEject" fieldsEventTypeUnionDiskEject,
  Decl.methodDef "EventTypeUnionDiskEject" "isEventTypeUnion",
  Decl.structDef "EventTypeUnionOperationComplete" fieldsEventTypeUnionOperationComplete,
  Decl.methodDef "EventTypeUnionOperationComplete" "isEventTypeUnion",
  Decl.typeDef "PsrCmtType" "int",
  Decl.constBlock constsPsrCmtType,
  Decl.typeDef "PsrCbmType" "int",
  Decl.constBlock constsPsrCbmType,
  Decl.structDef "PsrCatInfo" fieldsPsrCatInfo,
  Decl.typeDef "PsrFeatType" "int",
  Decl.constBlock constsPsrFeatType,
  Decl.structDef "PsrHwInfo" fieldsPsrHwInfo,
  Decl.interfaceDef "PsrHwInfoTypeUnion" ["isPsrHwInfoTypeUnion"],
  Decl.structDef "PsrHwInfoTypeUnionCat" fieldsPsrHwInfoTypeUnionCat,
  Decl.methodDef "PsrHwInfoTypeUnionCat" "isPsrHwInfoTypeUnion",
  Decl.structDef "PsrHwInfoTypeUnionMba" fieldsPsrHwInfoTypeUnionMba,
  Decl.methodDef "PsrHwInfoTypeUnionMba" "isPsrHwInfoTypeUnion"]

/-! Views of a declaration list -/

/-- The name a declaration gives to a type, if it declares one. -/
def Decl.typeName? : Decl → Option String
  | .typeDef n _ => some n
  | .structDef n _ => some n
  | .interfaceDef n _ => some n
  | _ => none

/-- Names of all types declared, in source order (one entry per declaration). -/
def declaredTypes (ds : List Decl) : List String :=
  ds.filterMap Decl.typeName?

/-- Names of the enumeration types: the declarations `type Name Underlying`. -/
def enumTypes (ds : List Decl) : List String :=
  ds.filterMap fun d =>
    match d with
    | .typeDef n _ => some n
    | _ => none

/-- All constants of all `const` blocks, in source order. -/
def allConsts (ds : List Decl) : List ConstSpec :=
  (ds.map fun d =>
    match d with
    | .constBlock cs => cs
    | _ => []).flatten

/-- The constants declared with type `E`, in source order. -/
def constsOf (ds : List Decl) (E : String) : List ConstSpec :=
  (allConsts ds).filter fun c => c.type = E

/-- The struct declarations: name and field list. -/
def structs (ds : List Decl) : List (String × List (String × GoType)) :=
  ds.filterMap fun d =>
    match d with
    | .structDef n fs => some (n, fs)
    | _ => none

/-- The interface declarations: name and method names. -/
def interfaces (ds : List Decl) : List (String × List String) :=
  ds.filterMap fun d =>
    match d with
    | .interfaceDef n ms => some (n, ms)
    | _ => none

/-- Names of the declared interfaces. -/
def interfaceNames (ds : List Decl) : List String :=
  (interfaces ds).map Prod.fst

/-- The method declarations: receiver type and method name. -/
def methodDecls (ds : List Decl) : List (String × String) :=
  ds.filterMap fun d =>
    match d with
    | .methodDef r m => some (r, m)
    | _ => none

/-- Every method of the list `ms` is declared with receiver `T`. -/
def declaresMethods (ds : List Decl) (T : String) (ms : List String) : Prop :=
  ∀ m ∈ ms, (T, m) ∈ methodDecls ds

instance (ds : List Decl) (T : String) (ms : List String) :
    Decidable (declaresMethods ds T ms) := by
  unfold declaresMethods
  infer_instance

/-- The concrete declared type `T` implements the declared interface `I`: every
method of `I` is declared with receiver `T` (Go's method-set rule for value
receivers; an interface's own method set is not counted). -/
def implements (ds : List Decl) (T I : String) : Prop :=
  T ∈ declaredTypes ds ∧ ∃ p ∈ interfaces ds, p.1 = I ∧ declaresMethods ds T p.2

instance (ds : List Decl) (T I : String) : Decidable (implements ds T I) := by
  unfold implements
  infer_instance

/-- The declared types implementing the interface `I`, in source order. -/
def implementers (ds : List Decl) (I : String) : List String :=
  (declaredTypes ds).filter fun T =>
    ∃ p ∈ interfaces ds, p.1 = I ∧ declaresMethods ds T p.2

/-- The variant types: the implementers of each declared interface in turn
(a type implementing two interfaces is listed under both). -/
def variantTypes (ds : List Decl) : List String :=
  (interfaceNames ds).flatMap fun I => implementers ds I

/-! Type expressions -/

mutual
/-- The type names occurring in a type expression, through slices and inline
struct literals. -/
def GoType.names : GoType → List String
  | .named n => [n]
  | .slice e => e.names
  | .structLit fs => GoType.namesOfFields fs
/-- The type names occurring in the field types of a field list. -/
def GoType.namesOfFields : List (String × GoType) → List String
  | [] => []
  | (_, t) :: r => t.names ++ GoType.namesOfFields r
end

/-- The type expression is a type name or a slice of a type name. -/
def GoType.isNameOrSlice : GoType → Bool
  | .named _ => true
  | .slice (.named _) => true
  | _ => false

/-- The type expression is an inline struct literal. -/
def GoType.isStructLit : GoType → Bool
  | .structLit _ => true
  | _ => false

/-- The field list of an inline struct literal (empty for other expressions). -/
def GoType.litFields : GoType → List (String × GoType)
  | .structLit fs => fs
  | _ => []

/-- The identifiers Go predeclares that the file uses as types. -/
def predeclared : List String :=
  ["int", "bool", "string", "byte", "uint16", "uint32", "uint64"]

/-- Every type name used in a field type (or slice element type, or inline
struct) of a struct declaration, with the struct using it, in source order. -/
def fieldTypeUses (ds : List Decl) : List (String × String) :=
  (structs ds).flatMap fun s => (GoType.namesOfFields s.2).map fun n => (s.1, n)

/-! Names -/

/-- The rest of `name` after the leading part `lead`, when `name` starts with
`lead`: `stripLead "ChannelConnection" "ChannelConnectionPty" = some "Pty"`. -/
def stripLead (lead name : String) : Option String :=
  if name.data.take lead.data.length = lead.data then
    some ⟨name.data.drop lead.data.length⟩
  else none

/-! Keyed unions -/

/-- A keyed union as it is laid out on its struct: a discriminant field
immediately followed by a field whose type is a declared interface. -/
structure KeyedUnion where
  /-- The struct that carries the union. -/
  owner : String
  /-- The name of the discriminant field. -/
  discr : String
  /-- The type of the discriminant field. -/
  enum : String
  /-- The name of the field that holds the variant. -/
  payload : String
  /-- The type of that field: the marker interface. -/
  marker : String
  deriving DecidableEq

/-- The keyed unions of one struct: each pair of adjacent fields
`F E` / `G M` with `M` a declared interface. -/
def unionsOfStruct (ifaces : List String) (S : String)
    (fs : List (String × GoType)) : List KeyedUnion :=
  (fs.zip fs.tail).filterMap fun p =>
    match p with
    | ((F, GoType.named E), (G, GoType.named M)) =>
      if M ∈ ifaces then some ⟨S, F, E, G, M⟩ else none
    | _ => none

/-- The keyed unions of the file, in source order. -/
def keyedUnions (ds : List Decl) : List KeyedUnion :=
  (structs ds).flatMap fun s => unionsOfStruct (interfaceNames ds) s.1 s.2

/-- The structs having a field whose type mentions `M` (at any depth), with the
number of their top-level fields that mention it. -/
def structsUsing (ds : List Decl) (M : String) : List (String × Nat) :=
  (structs ds).filterMap fun s =>
    let k := (s.2.filter fun f => M ∈ f.2.names).length
    if k = 0 then none else some (s.1, k)

/-- The label of a variant type within its union: the part of its name after
the marker interface's name. -/
def variantLabel (u : KeyedUnion) (V : String) : Option String :=
  stripLead u.marker V

/-- The label of a constant of the discriminant's type: the part of its name
after the type's name. -/
def constLabel (u : KeyedUnion) (c : ConstSpec) : Option String :=
  stripLead u.enum c.name

/-! Enum storage and values -/

/-- The declarations `type Name Underlying`: name and underlying type. -/
def typeDefs (ds : List Decl) : List (String × String) :=
  ds.filterMap fun d =>
    match d with
    | .typeDef n u => some (n, u)
    | _ => none

/-- The value a signed two's-complement integer of `w` bits holds after `v` is
stored in it: `v` reduced modulo `2 ^ w` into the range
`-2 ^ (w - 1) ≤ _ < 2 ^ (w - 1)`. -/
def wrapSigned (w : Nat) (v : Int) : Int :=
  (v + 2 ^ (w - 1)) % 2 ^ w - 2 ^ (w - 1)

/-- The values of the constants of type `E`, in source order. -/
def valuesOf (ds : List Decl) (E : String) : List Int :=
  (constsOf ds E).map fun c => c.value

/-- The number written by a string of decimal digits; `none` when the string
is empty or has a character that is not a digit. -/
def decimal? (s : String) : Option Nat :=
  if s.data ≠ [] ∧ ∀ c ∈ s.data, 48 ≤ c.toNat ∧ c.toNat ≤ 57 then
    some (s.data.foldl (fun n c => 10 * n + (c.toNat - 48)) 0)
  else none

/-! Properties of the declaration set -/

/-- `stripLead` finds exactly the decompositions `name = lead ++ rest`. -/
theorem stripLead_eq_some_iff (lead name rest : String) :
    stripLead lead name = some rest ↔ name = lead ++ rest := by
  unfold stripLead
  constructor
  · intro h
    split at h
    · rename_i ht
      have hr : rest.data = name.data.drop lead.data.length := by
        cases h
        rfl
      apply String.ext
      calc name.data
          = name.data.take lead.data.length ++ name.data.drop lead.data.length :=
            (List.take_append_drop _ _).symm
        _ = lead.data ++ rest.data := by rw [ht, hr]
        _ = (lead ++ rest).data := (String.data_append lead rest).symm
    · cases h
  · intro h
    subst h
    rw [String.data_append, List.take_left, List.drop_left, if_pos rfl]

/-- Adjacent elements of a list: a pair of `fs.zip fs.tail` splits the list. -/
theorem mem_zip_tail {α : Type} (fs : List α) (a b : α) (h : (a, b) ∈ fs.zip fs.tail) :
    ∃ pre post, fs = pre ++ a :: b :: post := by
  induction fs with
  | nil => simp at h
  | cons x xs ih =>
    cases xs with
    | nil => simp at h
    | cons y ys =>
      simp only [List.tail_cons, List.zip_cons_cons, List.mem_cons, Prod.mk.injEq] at h
      rcases h with ⟨rfl, rfl⟩ | h
      · exact ⟨[], ys, rfl⟩
      · obtain ⟨pre, post, hp⟩ := ih h
        exact ⟨x :: pre, post, by rw [hp]; rfl⟩

/-- A keyed union found on a struct is a pair of adjacent fields of that struct:
the discriminant, of a named type, immediately followed by the field typed by
the marker interface. -/
theorem mem_unionsOfStruct (ifaces : List String) (S : String)
    (fs : List (String × GoType)) (u : KeyedUnion)
    (h : u ∈ unionsOfStruct ifaces S fs) :
    u.owner = S ∧ u.marker ∈ ifaces ∧
      ∃ pre post, fs = pre ++
        (u.discr, GoType.named u.enum) :: (u.payload, GoType.named u.marker) :: post := by
  unfold unionsOfStruct at h
  rw [List.mem_filterMap] at h
  obtain ⟨⟨⟨F, tE⟩, ⟨G, tM⟩⟩, hp, hu⟩ := h
  cases tE <;> cases tM <;> simp only at hu <;> try cases hu
  rename_i E M
  split at hu
  · rename_i hM
    cases hu
    exact ⟨rfl, hM, mem_zip_tail fs _ _ hp⟩
  · cases hu

/-- A keyed union of a declaration list sits on a declared struct, as two
adjacent fields, and its marker is a declared interface. -/
theorem mem_keyedUnions (ds : List Decl) (u : KeyedUnion) (h : u ∈ keyedUnions ds) :
    u.marker ∈ interfaceNames ds ∧
      ∃ pre post, (u.owner, pre ++
        (u.discr, GoType.named u.enum) :: (u.payload, GoType.named u.marker) :: post)
          ∈ structs ds := by
  unfold keyedUnions at h
  rw [List.mem_flatMap] at h
  obtain ⟨⟨S, fs⟩, hs, hu⟩ := h
  obtain ⟨ho, hm, pre, post, hfs⟩ := mem_unionsOfStruct _ _ _ _ hu
  refine ⟨hm, pre, post, ?_⟩
  rw [ho, ← hfs]
  exact hs

/-- Membership in `implementers` is the relation `implements`. -/
theorem mem_implementers (ds : List Decl) (T I : String) :
    T ∈ implementers ds I ↔ implements ds T I := by
  unfold implementers implements
  rw [List.mem_filter, decide_eq_true_iff]

/-- The six keyed unions of the file, each with the declared types that
implement its marker interface. -/
theorem union_variants_eq :
    ((keyedUnions typesGen).map fun u => (u, implementers typesGen u.marker)) =
      [(⟨"Channelinfo", "Connection", "ChannelConnection", "ConnectionUnion",
          "ChannelinfoConnectionUnion"⟩, ["ChannelinfoConnectionUnionPty"]),
       (⟨"DomainBuildInfo", "Type", "DomainType", "TypeUnion", "DomainBuildInfoTypeUnion"⟩,
          ["DomainBuildInfoTypeUnionHvm", "DomainBuildInfoTypeUnionPv",
           "DomainBuildInfoTypeUnionPvh"]),
       (⟨"DeviceUsbdev", "Type", "UsbdevType", "TypeUnion", "DeviceUsbdevTypeUnion"⟩,
          ["DeviceUsbdevTypeUnionHostdev"]),
       (⟨"DeviceChannel", "Connection", "ChannelConnection", "ConnectionUnion",
          "DeviceChannelConnectionUnion"⟩, ["DeviceChannelConnectionUnionSocket"]),
       (⟨"Event", "Type", "EventType", "TypeUnion", "EventTypeUnion"⟩,
          ["EventTypeUnionDomainShutdown", "EventTypeUnionDiskEject",
           "EventTypeUnionOperationComplete"]),
       (⟨"PsrHwInfo", "Type", "PsrFeatType", "TypeUnion", "PsrHwInfoTypeUnion"⟩,
          ["PsrHwInfoTypeUnionCat", "PsrHwInfoTypeUnionMba"])] := by
  decide!

/-- The six keyed unions of the file. -/
theorem keyedUnions_eq :
    keyedUnions typesGen =
      [⟨"Channelinfo", "Connection", "ChannelConnection", "ConnectionUnion",
          "ChannelinfoConnectionUnion"⟩,
       ⟨"DomainBuildInfo", "Type", "DomainType", "TypeUnion", "DomainBuildInfoTypeUnion"⟩,
       ⟨"DeviceUsbdev", "Type", "UsbdevType", "TypeUnion", "DeviceUsbdevTypeUnion"⟩,
       ⟨"DeviceChannel", "Connection", "ChannelConnection", "ConnectionUnion",
          "DeviceChannelConnectionUnion"⟩,
       ⟨"Event", "Type", "EventType", "TypeUnion", "EventTypeUnion"⟩,
       ⟨"PsrHwInfo", "Type", "PsrFeatType", "TypeUnion", "PsrHwInfoTypeUnion"⟩] := by
  decide!

/-- The eleven variant types of the file, listed per marker interface. -/
theorem variantTypes_eq :
    variantTypes typesGen =
      ["ChannelinfoConnectionUnionPty", "DomainBuildInfoTypeUnionHvm",
       "DomainBuildInfoTypeUnionPv", "DomainBuildInfoTypeUnionPvh",
       "DeviceUsbdevTypeUnionHostdev", "DeviceChannelConnectionUnionSocket",
       "EventTypeUnionDomainShutdown", "EventTypeUnionDiskEject",
       "EventTypeUnionOperationComplete", "PsrHwInfoTypeUnionCat",
       "PsrHwInfoTypeUnionMba"] := by
  decide!

/-- A property of every union and every type implementing its marker holds as
soon as it holds on the table of `union_variants_eq`. -/
theorem forall_union_variant (P : KeyedUnion → String → Prop)
    (h : ∀ p ∈
      ([(⟨"Channelinfo", "Connection", "ChannelConnection", "ConnectionUnion",
          "ChannelinfoConnectionUnion"⟩, ["ChannelinfoConnectionUnionPty"]),
       (⟨"DomainBuildInfo", "Type", "DomainType", "TypeUnion", "DomainBuildInfoTypeUnion"⟩,
          ["DomainBuildInfoTypeUnionHvm", "DomainBuildInfoTypeUnionPv",
           "DomainBuildInfoTypeUnionPvh"]),
       (⟨"DeviceUsbdev", "Type", "UsbdevType", "TypeUnion", "DeviceUsbdevTypeUnion"⟩,
          ["DeviceUsbdevTypeUnionHostdev"]),
       (⟨"DeviceChannel", "Connection", "ChannelConnection", "ConnectionUnion",
          "DeviceChannelConnectionUnion"⟩, ["DeviceChannelConnectionUnionSocket"]),
       (⟨"Event", "Type", "EventType", "TypeUnion", "EventTypeUnion"⟩,
          ["EventTypeUnionDomainShutdown", "EventTypeUnionDiskEject",
           "EventTypeUnionOperationComplete"]),
       (⟨"PsrHwInfo", "Type", "PsrFeatType", "TypeUnion", "PsrHwInfoTypeUnion"⟩,
          ["PsrHwInfoTypeUnionCat", "PsrHwInfoTypeUnionMba"])] :
        List (KeyedUnion × List String)),
      ∀ V ∈ p.2, P p.1 V) :
    ∀ u ∈ keyedUnions typesGen, ∀ V ∈ implementers typesGen u.marker, P u V := by
  intro u hu V hV
  have hmem : (u, implementers typesGen u.marker) ∈
      (keyedUnions typesGen).map fun u => (u, implementers typesGen u.marker) :=
    List.mem_map_of_mem _ hu
  rw [union_variants_eq] at hmem
  exact h _ hmem V hV

/-- C1: the discriminant `Connection` of `Channelinfo` has type
`ChannelConnection` with exactly the constants Unknown = 0, Pty = 1,
Socket = 2; exactly one declared type implements the marker interface
`ChannelinfoConnectionUnion`, namely `ChannelinfoConnectionUnionPty`, whose
only field is `Path string`; no implementing type carries the label `Unknown`
or `Socket`, and no type of those two names is declared at all. -/
theorem channelinfo_union_single_variant :
    constsOf typesGen "ChannelConnection" =
        [⟨"ChannelConnectionUnknown", "ChannelConnection", 0⟩,
         ⟨"ChannelConnectionPty", "ChannelConnection", 1⟩,
         ⟨"ChannelConnectionSocket", "ChannelConnection", 2⟩] ∧
    (∃ u ∈ keyedUnions typesGen, u.owner = "Channelinfo" ∧ u.discr = "Connection" ∧
        u.enum = "ChannelConnection" ∧ u.marker = "ChannelinfoConnectionUnion") ∧
    ("ChannelinfoConnectionUnion", ["isChannelinfoConnectionUnion"]) ∈ interfaces typesGen ∧
    implementers typesGen "ChannelinfoConnectionUnion" = ["ChannelinfoConnectionUnionPty"] ∧
    (∀ T, implements typesGen T "ChannelinfoConnectionUnion" ↔
        T = "ChannelinfoConnectionUnionPty") ∧
    ((structs typesGen).filter fun s => s.1 = "ChannelinfoConnectionUnionPty") =
        [("ChannelinfoConnectionUnionPty", [("Path", GoType.named "string")])] ∧
    stripLead "ChannelinfoConnectionUnion" "ChannelinfoConnectionUnionPty" = some "Pty" ∧
    (∀ T ∈ implementers typesGen "ChannelinfoConnectionUnion",
        stripLead "ChannelinfoConnectionUnion" T ≠ some "Unknown" ∧
        stripLead "ChannelinfoConnectionUnion" T ≠ some "Socket") ∧
    "ChannelinfoConnectionUnionUnknown" ∉ declaredTypes typesGen ∧
    "ChannelinfoConnectionUnionSocket" ∉ declaredTypes typesGen := by
  have himpl : implementers typesGen "ChannelinfoConnectionUnion" =
      ["ChannelinfoConnectionUnionPty"] := by decide!
  have hiff : ∀ T, implements typesGen T "ChannelinfoConnectionUnion" ↔
      T = "ChannelinfoConnectionUnionPty" := by
    intro T
    rw [← mem_implementers, himpl, List.mem_singleton]
  rw [himpl, keyedUnions_eq]
  refine ⟨by decide!, by decide!, by decide!, rfl, hiff, by decide!, by decide!,
    by decide!, by decide!, by decide!⟩

/-- C2: the enum `TscMode` has exactly four constants, declared in the order
Default = 0, AlwaysEmulate = 1, Native = 2, NativeParavirt = 3; this order
follows the values and is not the alphabetical order of the names. -/
theorem tscMode_constants_in_value_order :
    "TscMode" ∈ enumTypes typesGen ∧
    constsOf typesGen "TscMode" =
        [⟨"TscModeDefault", "TscMode", 0⟩,
         ⟨"TscModeAlwaysEmulate", "TscMode", 1⟩,
         ⟨"TscModeNative", "TscMode", 2⟩,
         ⟨"TscModeNativeParavirt", "TscMode", 3⟩] ∧
    (constsOf typesGen "TscMode").length = 4 ∧
    ((constsOf typesGen "TscMode").map fun c => c.value) = [0, 1, 2, 3] ∧
    ¬ ((constsOf typesGen "TscMode").map fun c => c.name).Sorted (fun a b => a ≤ b) := by
  refine ⟨by decide!, by decide!, by decide!, by decide!, ?_⟩
  decide!

/-- C3: the file has exactly six keyed unions, one per marker interface.  In
each, every type implementing the marker carries a label (its name after the
marker's name) that is the label of exactly one constant of the discriminant's
enum type, and two implementing types with the same label are the same type.
No implementing type carries the label of the sentinels `DomainTypeInvalid`
(-1) or `ChannelConnectionUnknown` (0).  There are eleven variant types and
each implements exactly one of the marker interfaces. -/
theorem variant_label_map_injective :
    keyedUnions typesGen =
      [⟨"Channelinfo", "Connection", "ChannelConnection", "ConnectionUnion",
          "ChannelinfoConnectionUnion"⟩,
       ⟨"DomainBuildInfo", "Type", "DomainType", "TypeUnion", "DomainBuildInfoTypeUnion"⟩,
       ⟨"DeviceUsbdev", "Type", "UsbdevType", "TypeUnion", "DeviceUsbdevTypeUnion"⟩,
       ⟨"DeviceChannel", "Connection", "ChannelConnection", "ConnectionUnion",
          "DeviceChannelConnectionUnion"⟩,
       ⟨"Event", "Type", "EventType", "TypeUnion", "EventTypeUnion"⟩,
       ⟨"PsrHwInfo", "Type", "PsrFeatType", "TypeUnion", "PsrHwInfoTypeUnion"⟩] ∧
    ((keyedUnions typesGen).map fun u => u.marker) = interfaceNames typesGen ∧
    (∀ u ∈ keyedUnions typesGen, ∀ V ∈ implementers typesGen u.marker,
      (variantLabel u V).isSome ∧
      ∃ c ∈ constsOf typesGen u.enum, constLabel u c = variantLabel u V ∧
        ∀ d ∈ constsOf typesGen u.enum, constLabel u d = variantLabel u V → d = c) ∧
    (∀ u ∈ keyedUnions typesGen, ∀ V ∈ implementers typesGen u.marker,
      ∀ W ∈ implementers typesGen u.marker, variantLabel u V = variantLabel u W → V = W) ∧
    (⟨"DomainTypeInvalid", "DomainType", -1⟩ : ConstSpec) ∈ allConsts typesGen ∧
    (⟨"ChannelConnectionUnknown", "ChannelConnection", 0⟩ : ConstSpec) ∈ allConsts typesGen ∧
    (∀ u ∈ keyedUnions typesGen, ∀ V ∈ implementers typesGen u.marker,
      ∀ c ∈ constsOf typesGen u.enum,
        c.name = "DomainTypeInvalid" ∨ c.name = "ChannelConnectionUnknown" →
          constLabel u c ≠ variantLabel u V) ∧
    (variantTypes typesGen).length = 11 ∧
    (∀ V ∈ variantTypes typesGen,
      ((interfaceNames typesGen).filter fun I => implements typesGen V I).length = 1) := by
  refine ⟨keyedUnions_eq, by decide!, ?_, ?_, by decide!, by decide!, ?_, ?_, ?_⟩
  · apply forall_union_variant
    decide!
  · apply forall_union_variant
    decide!
  · apply forall_union_variant
    decide!
  · rw [variantTypes_eq]
    decide!
  · rw [variantTypes_eq]
    decide!

/-- C4: within every enum type of the file no two constants have the same
value: the value list of each enum type has no repetition, so two distinct
constants of one type have different values.  Every constant belongs to a
declared enum type and every enum type has constants. -/
theorem enum_values_distinct :
    (∀ c ∈ allConsts typesGen, c.type ∈ enumTypes typesGen) ∧
    (∀ E ∈ enumTypes typesGen, constsOf typesGen E ≠ []) ∧
    (∀ E ∈ enumTypes typesGen, ((constsOf typesGen E).map fun c => c.value).Nodup) ∧
    (∀ E ∈ enumTypes typesGen, ∀ c1 ∈ constsOf typesGen E, ∀ c2 ∈ constsOf typesGen E,
      c1 ≠ c2 → c1.value ≠ c2.value) := by
  refine ⟨by decide!, by decide!, by decide!, by decide!⟩

/-- C5: no two type declarations of the file have the same name; the six
marker interface names are pairwise distinct and so are the eleven variant
type names; every variant type's name begins with the name of the struct that
carries its union.  `Channelinfo` and `DeviceChannel`, both discriminated by
`ChannelConnection`, have the variants `ChannelinfoConnectionUnionPty` and
`DeviceChannelConnectionUnionSocket`, and the four unions on a field named
`Type` have four distinct markers. -/
theorem type_names_unique :
    (declaredTypes typesGen).Nodup ∧
    (interfaceNames typesGen).length = 6 ∧ (interfaceNames typesGen).Nodup ∧
    (variantTypes typesGen).length = 11 ∧ (variantTypes typesGen).Nodup ∧
    (∀ u ∈ keyedUnions typesGen, ∀ V ∈ implementers typesGen u.marker,
      ∃ rest, V = u.owner ++ rest) ∧
    (∃ u ∈ keyedUnions typesGen, ∃ w ∈ keyedUnions typesGen,
      u.owner = "Channelinfo" ∧ w.owner = "DeviceChannel" ∧
      u.enum = "ChannelConnection" ∧ w.enum = "ChannelConnection" ∧
      implementers typesGen u.marker = ["ChannelinfoConnectionUnionPty"] ∧
      implementers typesGen w.marker = ["DeviceChannelConnectionUnionSocket"]) ∧
    (((keyedUnions typesGen).filter fun u => u.discr = "Type").map fun u => u.marker) =
      ["DomainBuildInfoTypeUnion", "DeviceUsbdevTypeUnion", "EventTypeUnion",
       "PsrHwInfoTypeUnion"] ∧
    ["DomainBuildInfoTypeUnion", "DeviceUsbdevTypeUnion", "EventTypeUnion",
       "PsrHwInfoTypeUnion"].Nodup := by
  refine ⟨by decide!, by decide!, by decide!, ?_, ?_, ?_, ?_, ?_, by decide!⟩
  · rw [variantTypes_eq]
    decide!
  · rw [variantTypes_eq]
    decide!
  · intro u hu V hV
    have h := forall_union_variant (fun u V => (stripLead u.owner V).isSome = true)
      (by decide!) u hu V hV
    obtain ⟨rest, hr⟩ := Option.isSome_iff_exists.mp h
    exact ⟨rest, (stripLead_eq_some_iff _ _ _).mp hr⟩
  · rw [keyedUnions_eq]
    decide!
  · rw [keyedUnions_eq]
    decide!

/-- C6, as stated, fails: `DomainBuildInfo` has the field `ArchArm` whose type
is an inline struct literal, so not every field type of every struct is a type
name or a slice of a type name. -/
theorem inline_struct_field_exists :
    (∃ s ∈ structs typesGen, s.1 = "DomainBuildInfo" ∧
      ∃ f ∈ s.2, f.1 = "ArchArm" ∧ f.2.isStructLit = true ∧ f.2.isNameOrSlice = false) ∧
    "DomainBuildInfoArchArm" ∉ declaredTypes typesGen ∧
    ¬ ∀ s ∈ structs typesGen, ∀ f ∈ s.2, f.2.isNameOrSlice = true := by
  refine ⟨by decide!, by decide!, by decide!⟩

/-- C6, amended: every field of every struct declaration has a type that is a
type name or a slice of a type name, except the two fields `ArchArm` and
`ArchX86` of `DomainBuildInfo`, whose types are inline struct literals with
fields of named types.  These are the only inline struct literals of the file,
and no top-level struct is declared for either of them: no struct declaration
has the field list of one of the literals, and no type is declared under the
names `ArchArm`, `ArchX86`, `DomainBuildInfoArchArm` or
`DomainBuildInfoArchX86`. -/
theorem field_types_named_except_arch :
    (∀ s ∈ structs typesGen, ∀ f ∈ s.2,
      f.2.isNameOrSlice = true ∨
      (s.1 = "DomainBuildInfo" ∧ (f.1 = "ArchArm" ∨ f.1 = "ArchX86") ∧
        f.2.isStructLit = true ∧ ∀ g ∈ f.2.litFields, g.2.isNameOrSlice = true)) ∧
    ((structs typesGen).flatMap fun s =>
        (s.2.filter fun f => f.2.isStructLit).map fun f => (s.1, f)) =
      [("DomainBuildInfo", "ArchArm", GoType.structLit
          [("GicVersion", GoType.named "GicVersion"), ("Vuart", GoType.named "VuartType"),
           ("SveVl", GoType.named "SveType"), ("NrSpis", GoType.named "uint32")]),
       ("DomainBuildInfo", "ArchX86", GoType.structLit
          [("MsrRelaxed", GoType.named "Defbool")])] ∧
    (∀ s ∈ structs typesGen, ∀ t ∈ structs typesGen, ∀ f ∈ t.2,
      f.2.isStructLit = true → s.2 ≠ f.2.litFields) ∧
    (∀ n ∈ ["ArchArm", "ArchX86", "DomainBuildInfoArchArm", "DomainBuildInfoArchX86"],
      n ∉ declaredTypes typesGen) := by
  refine ⟨by decide!, by decide!, by decide!, by decide!⟩

/-- C7, as stated, fails: the field `Enable` of `VncInfo` has type `Defbool`,
which is neither a predeclared Go type nor a type declared in the file. -/
theorem undeclared_field_type_exists :
    (∃ s ∈ structs typesGen, s.1 = "VncInfo" ∧
      ("Enable", GoType.named "Defbool") ∈ s.2) ∧
    ("VncInfo", "Defbool") ∈ fieldTypeUses typesGen ∧
    "Defbool" ∉ predeclared ∧ "Defbool" ∉ declaredTypes typesGen ∧
    ¬ ∀ p ∈ fieldTypeUses typesGen, p.2 ∈ predeclared ∨ p.2 ∈ declaredTypes typesGen := by
  refine ⟨by decide!, by decide!, by decide!, by decide!, by decide!⟩

/-- C7, amended: every type name used as a field type, slice element type or
inline-struct field type of a struct declaration is a predeclared Go type
(int, bool, string, byte, uint16, uint32, uint64), a type declared in the
file, or one of the twelve names `Defbool`, `Domid`, `Devid`, `Uuid`,
`Bitmap`, `StringList`, `KeyValueList`, `CpuidPolicyList`, `MsVmGenid`, `Mac`,
`Hwcap`, `EvLink`; each of these twelve is used by a field and is neither
predeclared nor declared in the file. -/
theorem field_types_closed_up_to_package_types :
    (∀ p ∈ fieldTypeUses typesGen,
      p.2 ∈ predeclared ∨
      p.2 ∈ ["Defbool", "Domid", "Devid", "Uuid", "Bitmap", "StringList", "KeyValueList",
        "CpuidPolicyList", "MsVmGenid", "Mac", "Hwcap", "EvLink"] ∨
      p.2 ∈ declaredTypes typesGen) ∧
    (∀ n ∈ ["Defbool", "Domid", "Devid", "Uuid", "Bitmap", "StringList", "KeyValueList",
        "CpuidPolicyList", "MsVmGenid", "Mac", "Hwcap", "EvLink"],
      n ∉ predeclared ∧ n ∉ declaredTypes typesGen ∧
        ∃ p ∈ fieldTypeUses typesGen, p.2 = n) ∧
    (∀ n ∈ predeclared, n ∉ declaredTypes typesGen ∧ ∃ p ∈ fieldTypeUses typesGen, p.2 = n) := by
  refine ⟨by decide!, by decide!, by decide!⟩

/-- Two names with the same rest after their leading parts, found by
`stripLead`, decompose with a common label. -/
theorem exists_common_label (x a y b : String)
    (h1 : (stripLead x a).isSome = true) (h2 : stripLead y b = stripLead x a) :
    ∃ L, b = y ++ L ∧ a = x ++ L := by
  obtain ⟨L, hL⟩ := Option.isSome_iff_exists.mp h1
  rw [hL] at h2
  exact ⟨L, (stripLead_eq_some_iff _ _ _).mp h2, (stripLead_eq_some_iff _ _ _).mp hL⟩

/-- C8, as stated, fails: the variant of the union on `Channelinfo.Connection`
for the label `Pty` (constant `ChannelConnectionPty`) is named
`ChannelinfoConnectionUnionPty`; the concatenation of the struct name, the
discriminant field name and the label is `ChannelinfoConnectionPty`, which is
not that name and is not a declared type. -/
theorem variant_name_not_struct_field_label :
    (⟨"Channelinfo", "Connection", "ChannelConnection", "ConnectionUnion",
        "ChannelinfoConnectionUnion"⟩ : KeyedUnion) ∈ keyedUnions typesGen ∧
    implementers typesGen "ChannelinfoConnectionUnion" = ["ChannelinfoConnectionUnionPty"] ∧
    (⟨"ChannelConnectionPty", "ChannelConnection", 1⟩ : ConstSpec) ∈
      constsOf typesGen "ChannelConnection" ∧
    "ChannelConnectionPty" = "ChannelConnection" ++ "Pty" ∧
    "Channelinfo" ++ "Connection" ++ "Pty" = "ChannelinfoConnectionPty" ∧
    "ChannelinfoConnectionUnionPty" ≠ "Channelinfo" ++ "Connection" ++ "Pty" ∧
    "Channelinfo" ++ "Connection" ++ "Pty" ∉ declaredTypes typesGen ∧
    ¬ ∀ u ∈ keyedUnions typesGen, ∀ V ∈ implementers typesGen u.marker,
        ∃ c ∈ constsOf typesGen u.enum, ∃ L,
          c.name = u.enum ++ L ∧ V = u.owner ++ u.discr ++ L := by
  have hu : (⟨"Channelinfo", "Connection", "ChannelConnection", "ConnectionUnion",
      "ChannelinfoConnectionUnion"⟩ : KeyedUnion) ∈ keyedUnions typesGen := by
    rw [keyedUnions_eq]
    decide!
  have hV : implementers typesGen "ChannelinfoConnectionUnion" =
      ["ChannelinfoConnectionUnionPty"] := by decide!
  refine ⟨hu, hV, by decide!, by decide!, by decide!, by decide!, by decide!, ?_⟩
  intro h
  obtain ⟨c, hc, L, h1, h2⟩ := h _ hu "ChannelinfoConnectionUnionPty" (by
    show "ChannelinfoConnectionUnionPty" ∈ implementers typesGen "ChannelinfoConnectionUnion"
    rw [hV]
    exact List.mem_singleton.mpr rfl)
  have hs := (stripLead_eq_some_iff ("Channelinfo" ++ "Connection")
    "ChannelinfoConnectionUnionPty" L).mpr h2
  have hL : stripLead ("Channelinfo" ++ "Connection") "ChannelinfoConnectionUnionPty" =
      some "UnionPty" := by decide!
  rw [hL] at hs
  cases hs
  have hno : ∀ c ∈ constsOf typesGen "ChannelConnection",
      c.name ≠ "ChannelConnection" ++ "UnionPty" := by decide!
  exact hno c hc h1

/-- C8, amended: every variant type's name is the concatenation of the name
of the struct that carries the union, the name of the discriminant field, the
word `Union` and the discriminant label, where the discriminant enum has the
constant named by the enum type name followed by that same label; this holds
for all eleven variant types of the six unions. -/
theorem variant_name_is_struct_field_union_label :
    (keyedUnions typesGen).length = 6 ∧
    (variantTypes typesGen).length = 11 ∧
    (∀ V ∈ variantTypes typesGen, ∃ u ∈ keyedUnions typesGen,
      V ∈ implementers typesGen u.marker) ∧
    (∀ u ∈ keyedUnions typesGen, u.marker = u.owner ++ u.discr ++ "Union") ∧
    (∀ u ∈ keyedUnions typesGen, ∀ V ∈ implementers typesGen u.marker,
      ∃ c ∈ constsOf typesGen u.enum, ∃ L,
        c.name = u.enum ++ L ∧ V = u.owner ++ u.discr ++ "Union" ++ L) := by
  refine ⟨?_, ?_, ?_, ?_, ?_⟩
  · rw [keyedUnions_eq]
    decide!
  · rw [variantTypes_eq]
    decide!
  · rw [variantTypes_eq, keyedUnions_eq]
    decide!
  · rw [keyedUnions_eq]
    decide!
  · intro u hu V hV
    have h := forall_union_variant
      (fun u V => ∃ c ∈ constsOf typesGen u.enum,
        (stripLead (u.owner ++ u.discr ++ "Union") V).isSome = true ∧
        stripLead u.enum c.name = stripLead (u.owner ++ u.discr ++ "Union") V)
      (by decide!) u hu V hV
    obtain ⟨c, hc, h1, h2⟩ := h
    exact ⟨c, hc, exists_common_label _ _ _ _ h1 h2⟩

/-- C9: each of the six marker interfaces is used as a field type by exactly
one struct, in exactly one field; in that struct a discriminant field `F`,
whose type is an enum type declared in the file, is immediately followed by
the field `F ++ "Union"` whose type is the marker interface, and the marker
is named by the struct name followed by `F` and `Union`.  No variant type
carries a union of its own, a field named like a discriminant, or a field
whose type mentions a discriminant enum type or a marker interface. -/
theorem union_two_field_layout :
    (interfaceNames typesGen).length = 6 ∧
    (∀ M ∈ interfaceNames typesGen, ∃ S F E pre post,
      structsUsing typesGen M = [(S, 1)] ∧
      (S, pre ++ (F, GoType.named E) :: (F ++ "Union", GoType.named M) :: post)
        ∈ structs typesGen ∧
      E ∈ enumTypes typesGen ∧ M = S ++ F ++ "Union") ∧
    (((keyedUnions typesGen).map fun u => (u.owner, u.discr, u.payload)) =
      [("Channelinfo", "Connection", "ConnectionUnion"),
       ("DomainBuildInfo", "Type", "TypeUnion"),
       ("DeviceUsbdev", "Type", "TypeUnion"),
       ("DeviceChannel", "Connection", "ConnectionUnion"),
       ("Event", "Type", "TypeUnion"),
       ("PsrHwInfo", "Type", "TypeUnion")]) ∧
    (∀ u ∈ keyedUnions typesGen, ∀ V ∈ implementers typesGen u.marker,
      ∀ s ∈ structs typesGen, s.1 = V →
        unionsOfStruct (interfaceNames typesGen) s.1 s.2 = [] ∧
        ∀ f ∈ s.2, ∀ w ∈ keyedUnions typesGen,
          f.1 ≠ w.discr ∧ w.enum ∉ f.2.names ∧ w.marker ∉ f.2.names) := by
  refine ⟨by decide!, ?_, ?_, ?_⟩
  · intro M hM
    have h : ∀ M ∈ interfaceNames typesGen, ∃ u ∈ keyedUnions typesGen,
        u.marker = M ∧ structsUsing typesGen M = [(u.owner, 1)] ∧
        u.enum ∈ enumTypes typesGen ∧ u.payload = u.discr ++ "Union" ∧
        M = u.owner ++ u.discr ++ "Union" := by
      rw [keyedUnions_eq]
      decide!
    obtain ⟨u, hu, hm, hs, he, hp, hn⟩ := h M hM
    obtain ⟨_, pre, post, hmem⟩ := mem_keyedUnions typesGen u hu
    rw [hp, hm] at hmem
    exact ⟨u.owner, u.discr, u.enum, pre, post, hs, hmem, he, hn⟩
  · rw [keyedUnions_eq]
    decide!
  · apply forall_union_variant
    rw [keyedUnions_eq]
    decide!

/-- C10: enum values are emitted exactly.  `DomainType` has exactly the
constants Invalid = -1, Hvm = 1, Pv = 2, Pvh = 3, so it has a constant equal
to -1 and none equal to 0; `Scheduler` has Unknown = 0 followed by the values
4, 5, 6, 7, 8, 9 and no constant equal to 1, 2 or 3. -/
theorem domainType_scheduler_exact_values :
    constsOf typesGen "DomainType" =
      [⟨"DomainTypeInvalid", "DomainType", -1⟩,
       ⟨"DomainTypeHvm", "DomainType", 1⟩,
       ⟨"DomainTypePv", "DomainType", 2⟩,
       ⟨"DomainTypePvh", "DomainType", 3⟩] ∧
    (∃ c ∈ constsOf typesGen "DomainType", c.value = -1) ∧
    (∀ c ∈ constsOf typesGen "DomainType", c.value ≠ 0) ∧
    constsOf typesGen "Scheduler" =
      [⟨"SchedulerUnknown", "Scheduler", 0⟩,
       ⟨"SchedulerSedf", "Scheduler", 4⟩,
       ⟨"SchedulerCredit", "Scheduler", 5⟩,
       ⟨"SchedulerCredit2", "Scheduler", 6⟩,
       ⟨"SchedulerArinc653", "Scheduler", 7⟩,
       ⟨"SchedulerRtds", "Scheduler", 8⟩,
       ⟨"SchedulerNull", "Scheduler", 9⟩] ∧
    ((constsOf typesGen "Scheduler").map fun c => c.value) = [0, 4, 5, 6, 7, 8, 9] ∧
    (∀ c ∈ constsOf typesGen "Scheduler", c.value ≠ 1 ∧ c.value ≠ 2 ∧ c.value ≠ 3) ∧
    "DomainType" ∈ enumTypes typesGen ∧ "Scheduler" ∈ enumTypes typesGen := by
  have hd : constsOf typesGen "DomainType" =
      [⟨"DomainTypeInvalid", "DomainType", -1⟩,
       ⟨"DomainTypeHvm", "DomainType", 1⟩,
       ⟨"DomainTypePv", "DomainType", 2⟩,
       ⟨"DomainTypePvh", "DomainType", 3⟩] := by decide!
  have hs : constsOf typesGen "Scheduler" =
      [⟨"SchedulerUnknown", "Scheduler", 0⟩,
       ⟨"SchedulerSedf", "Scheduler", 4⟩,
       ⟨"SchedulerCredit", "Scheduler", 5⟩,
       ⟨"SchedulerCredit2", "Scheduler", 6⟩,
       ⟨"SchedulerArinc653", "Scheduler", 7⟩,
       ⟨"SchedulerRtds", "Scheduler", 8⟩,
       ⟨"SchedulerNull", "Scheduler", 9⟩] := by decide!
  rw [hd, hs]
  refine ⟨rfl, by decide!, by decide!, rfl, by decide!, by decide!, by decide!, by decide!⟩

/-- C12: every enum type of the file is declared with the underlying type
`int`.  Over all constants of the file the least value is -32, taken by
`ErrorQemuApi` only, and the greatest is 2048, taken by `SveType2048` only;
so every constant lies in the range of a signed 16-bit integer, hence of a
signed 32-bit one, and no constant changes value when it is reduced modulo
`2 ^ 32` (or `2 ^ 64`) as a signed integer. -/
theorem enum_storage_holds_all_constants :
    (typeDefs typesGen).length = 43 ∧
    (∀ p ∈ typeDefs typesGen, p.2 = "int") ∧
    (∀ c ∈ allConsts typesGen, c.type ∈ enumTypes typesGen) ∧
    (∀ c ∈ allConsts typesGen, -32 ≤ c.value ∧ c.value ≤ 2048) ∧
    ((allConsts typesGen).filter fun c => c.value = -32) =
      [⟨"ErrorQemuApi", "Error", -32⟩] ∧
    ((allConsts typesGen).filter fun c => c.value = 2048) =
      [⟨"SveType2048", "SveType", 2048⟩] ∧
    (∀ c ∈ allConsts typesGen, -2 ^ 31 ≤ c.value ∧ c.value < 2 ^ 31) ∧
    (∀ c ∈ allConsts typesGen, -2 ^ 15 ≤ c.value ∧ c.value < 2 ^ 15) ∧
    (∀ c ∈ allConsts typesGen,
      wrapSigned 32 c.value = c.value ∧ wrapSigned 64 c.value = c.value) := by
  refine ⟨by decide!, by decide!, by decide!, by decide!, by decide!, by decide!,
    by decide!, by decide!, by decide!⟩

/-- C13: the enum `Error` has exactly 32 constants; the k-th constant in
declaration order (k = 1..32) has value -k, so the values are exactly the
integers -1 down to -32 with no gap, `ErrorNonspecific` is -1, `ErrorQemuApi`
is -32, and no `Error` constant is zero or positive. -/
theorem error_values_minus_one_to_minus_32 :
    "Error" ∈ enumTypes typesGen ∧
    (constsOf typesGen "Error").length = 32 ∧
    valuesOf typesGen "Error" = (List.range 32).map (fun (k : Nat) => -((k : Int) + 1)) ∧
    (∀ k : Fin 32, (valuesOf typesGen "Error")[k.val]? = some (-((k.val : Int) + 1))) ∧
    (constsOf typesGen "Error").head? = some ⟨"ErrorNonspecific", "Error", -1⟩ ∧
    (constsOf typesGen "Error").getLast? = some ⟨"ErrorQemuApi", "Error", -32⟩ ∧
    (∀ c ∈ constsOf typesGen "Error", c.value < 0) ∧
    (∀ c ∈ constsOf typesGen "Error", -32 ≤ c.value ∧ c.value ≤ -1) ∧
    (∀ v : Int, -32 ≤ v → v ≤ -1 → v ∈ valuesOf typesGen "Error") := by
  have hv : valuesOf typesGen "Error" = (List.range 32).map (fun (k : Nat) => -((k : Int) + 1)) := by
    decide!
  refine ⟨by decide!, by decide!, hv, by decide!, by decide!, by decide!, by decide!,
    by decide!, ?_⟩
  intro v h1 h2
  rw [hv, List.mem_map]
  refine ⟨(-v - 1).toNat, ?_, ?_⟩
  · rw [List.mem_range]
    omega
  · omega

/-- C14: in every enum type other than `Error` each constant's value is
greater than that of the constant declared before it, and in `Error` each is
smaller than the one before.  In `SveType` the constants are `SveTypeHw` = -1,
`SveTypeDisabled` = 0 and sixteen more, each with a value equal to the decimal
number in its name; these values are exactly the sixteen multiples of 128
from 128 to 2048. -/
theorem enum_declaration_order_monotone :
    (∀ E ∈ enumTypes typesGen, E ≠ "Error" →
      ∀ p ∈ (valuesOf typesGen E).zip (valuesOf typesGen E).tail, p.1 < p.2) ∧
    (∀ E ∈ enumTypes typesGen, E ≠ "Error" →
      (valuesOf typesGen E).Pairwise fun a b => a < b) ∧
    (∀ p ∈ (valuesOf typesGen "Error").zip (valuesOf typesGen "Error").tail, p.2 < p.1) ∧
    ((valuesOf typesGen "Error").Pairwise fun a b => b < a) ∧
    (constsOf typesGen "SveType").take 2 =
      [⟨"SveTypeHw", "SveType", -1⟩, ⟨"SveTypeDisabled", "SveType", 0⟩] ∧
    (∀ c ∈ constsOf typesGen "SveType",
      c.name ≠ "SveTypeHw" → c.name ≠ "SveTypeDisabled" →
        0 < c.value ∧
        (stripLead "SveType" c.name).bind decimal? = some c.value.toNat) ∧
    (((constsOf typesGen "SveType").filter fun c =>
        c.name ≠ "SveTypeHw" ∧ c.name ≠ "SveTypeDisabled").map fun c => c.value) =
      (List.range 16).map (fun (k : Nat) => 128 * ((k : Int) + 1)) ∧
    (constsOf typesGen "SveType").length = 18 := by
  refine ⟨by decide!, by decide!, by decide!, by decide!, by decide!, by decide!,
    by decide!, by decide!⟩

end Xenlight
